import Mathlib

/-!
# genUp4win: update check, manifest read/write and settings path

A shallow embedding of `src/genUp4win.cpp` (`GetAppSettingsFilePath`,
`WriteConfigFile`, `ReadConfigFile`, `CheckForUpdates`) and of `CenterWindow`
in `src/DemoApp/DemoApp.cpp`.

* Strings (`std::wstring`, `CString`, `TCHAR` buffers) are `String`.
* Everything the functions obtain from outside the source file (Win32 calls,
  the version resource of the binary, the string table) is a field of `Env`;
  the string macros defined outside src/ are the parameter `Macros`.
  No external call site is inside a loop, so each one is executed at most once
  per run and its outcome is one field.
* The observable effects of a run (status callback invocations, downloads,
  launches) are appended to `World.trace`; the file system holding manifest
  documents is `World.files`.
* The `int` arithmetic of `CenterWindow` is on `Int`, each operation followed by
  `toInt32`, the 32-bit two's-complement result.
-/

set_option autoImplicit false

namespace GenUp4win

/-! ## Basic types -/

/-- Win32 `HRESULT`, a signed 32-bit value; only its sign and its equality with
`S_OK` are inspected by the code. -/
abbrev HRESULT := Int

/-- The success code `S_OK`. -/
def S_OK : HRESULT := 0

/-- The Win32 test `FAILED(hr)`: the result is negative. -/
def FAILED (hr : HRESULT) : Bool := decide (hr < 0)

/-- Status codes of `genUp4win.h` (`GENUP4WIN_ERROR = -1`, `GENUP4WIN_OK = 0`,
`GENUP4WIN_INPROGRESS = 1`). -/
inductive GENUP4WIN_STATUS
  | GENUP4WIN_ERROR
  | GENUP4WIN_OK
  | GENUP4WIN_INPROGRESS
  deriving DecidableEq

open GENUP4WIN_STATUS

/-- The integer passed to the callback for a status code. -/
def GENUP4WIN_STATUS.toInt : GENUP4WIN_STATUS → Int
  | GENUP4WIN_ERROR => -1
  | GENUP4WIN_OK => 0
  | GENUP4WIN_INPROGRESS => 1

/-- What `CVersionInfo::Load` makes available: `GetProductName()` and
`GetProductVersionAsString()`. -/
structure CVersionInfo where
  ProductName : String
  ProductVersionAsString : String
  deriving DecidableEq

/-- The string-table identifiers used by the source (`resource.h`). -/
inductive ResId
  | IDS_CONNECTING
  | IDS_DOWNLOADING
  | IDS_SUCCESS
  | IDS_FAILED
  deriving DecidableEq

open ResId

/-- Observable effects of a run, in the order they happen. -/
inductive Effect
  | ParentCallback (status : GENUP4WIN_STATUS) (strMessage : String)
  | URLDownloadToFile (szURL szFileName : String)
  | ShellExecuteEx (lpFile : String)
  deriving DecidableEq

/-! ## The manifest store -/

/-- One section of a settings document: entry name to value. -/
abbrev Section := List (String × String)

/-- A settings document: section name (the product name) to section. -/
abbrev Doc := List (String × Section)

/-- Content of a file: a parseable settings document, or anything else. -/
inductive FileContent
  | xml (d : Doc)
  | other
  deriving DecidableEq

/-- The file system: path to content, `none` when the file does not exist. -/
abbrev Files := String → Option FileContent

/-- Store `c` at `path`. -/
def Files.set (files : Files) (path : String) (c : FileContent) : Files :=
  fun p => if p = path then some c else files p

/-- The failures of the manifest store (`CAppSettingsException`). -/
inductive StoreError
  | EntryNotFound
  | ParseError
  deriving DecidableEq

/-- Insert or replace the value of key `k` in an association list; `f` receives
the old value, if any. -/
def upsert {β : Type} (k : String) (f : Option β → β) : List (String × β) → List (String × β)
  | [] => [(k, f none)]
  | (k1, v1) :: rest =>
    if k1 = k then (k, f (some v1)) :: rest else (k1, v1) :: upsert k f rest

/-- Modelled from the spec: `CXMLAppSettings::GetString` (AppSettings.h is not
under src/). Manifest Store `read`: looks up the entry of the section; fails
with `EntryNotFound` if the product name (or the entry) has no entry and with
`ParseError` if the document is malformed (or absent). -/
def CXMLAppSettings.GetString (files : Files) (sXMLFile lpszSection lpszEntry : String) :
    Except StoreError String :=
  match files sXMLFile with
  | some (FileContent.xml d) =>
    match d.lookup lpszSection with
    | some s =>
      match s.lookup lpszEntry with
      | some v => Except.ok v
      | none => Except.error StoreError.EntryNotFound
    | none => Except.error StoreError.EntryNotFound
  | _ => Except.error StoreError.ParseError

/-- Modelled from the spec: `CXMLAppSettings::WriteString` with write-flush on
(AppSettings.h is not under src/). Manifest Store `write`: upserts the entry of
the section, creates the document if absent, fails if the existing file is not
a parseable document. The updated file system is returned. -/
def CXMLAppSettings.WriteString (files : Files) (sXMLFile lpszSection lpszEntry lpszValue : String) :
    Except StoreError Files :=
  match files sXMLFile with
  | none =>
    Except.ok (files.set sXMLFile (FileContent.xml [(lpszSection, [(lpszEntry, lpszValue)])]))
  | some (FileContent.xml d) =>
    Except.ok (files.set sXMLFile (FileContent.xml
      (upsert lpszSection (fun s => upsert lpszEntry (fun _ => lpszValue) (s.getD [])) d)))
  | some FileContent.other => Except.error StoreError.ParseError

/-! ## World and environment -/

/-- The state threaded through a run. -/
structure World where
  files : Files
  trace : List Effect

/-- A world with the given files and nothing observed yet. -/
def World.start (files : Files) : World := ⟨files, []⟩

/-- The string macros the source uses and that are defined outside src/: they
are part of the program, the same for the writing and the reading side. -/
structure Macros where
  VERSION_ENTRY_ID : String
  DOWNLOAD_ENTRY_ID : String
  DEFAULT_EXTENSION : String

/-- Outcomes of everything external to the program, one field per call site. -/
structure Env where
  /-- Outcome of `CVersionInfo::Load(path)`: `none` when it returns false. -/
  Load : String → Option CVersionInfo
  /-- Outcome of `SHGetKnownFolderPath(FOLDERID_Profile, ...)`: result and folder. -/
  SHGetKnownFolderPath : HRESULT × String
  /-- Outcome of `CoInitialize(nullptr)`. -/
  CoInitialize : HRESULT
  /-- Outcome of `CString::LoadString(id)`: `none` when it returns false. -/
  LoadString : ResId → Option String
  /-- The text `_com_error(hr).ErrorMessage()`. -/
  ErrorMessage : HRESULT → String
  /-- The text `CAppSettingsException::GetErrorMessage` yields. -/
  GetErrorMessage : StoreError → String
  /-- Outcome of `GetTempPath` in `ReadConfigFile`: length and path. -/
  cfgTempPath : Nat × String
  /-- Outcome of `GetTempFileName(lpszTempPath, "GUP", 0, ...)` in
  `ReadConfigFile`: returned number and file name. -/
  cfgTempFileName : String → Nat × String
  /-- Outcome of `URLDownloadToFile` of the manifest: result, and the body stored in the
  target file when the result is `S_OK`. -/
  cfgDownload : HRESULT × FileContent
  /-- Outcome of `GetTempPath` in `CheckForUpdates`. -/
  updTempPath : Nat × String
  /-- Outcome of `GetTempFileName(lpszTempPath, "GUP", 0, ...)` in
  `CheckForUpdates`. -/
  updTempFileName : String → Nat × String
  /-- Outcome of `URLDownloadToFile` of the payload: result and stored body. -/
  updDownload : HRESULT × FileContent
  /-- Outcome of `ShellExecuteEx` of the downloaded payload. -/
  ShellExecuteEx : Bool

/-- Invoke `ParentCallback(status, strMessage)`. -/
def ParentCallback (status : GENUP4WIN_STATUS) (strMessage : String) (w : World) : World :=
  { w with trace := w.trace ++ [Effect.ParentCallback status strMessage] }

/-- The pattern `if (strStatusMessage.LoadString(id)) ParentCallback(GENUP4WIN_INPROGRESS, ...)`. -/
def reportInProgress (env : Env) (id : ResId) (w : World) : World :=
  match env.LoadString id with
  | some strStatusMessage => ParentCallback GENUP4WIN_INPROGRESS strStatusMessage w
  | none => w

/-- The call `URLDownloadToFile(nullptr, szURL, szFileName, 0, nullptr)` with the given
outcome: the call is recorded, and on `S_OK` the body is stored in the file. -/
def URLDownloadToFile (outcome : HRESULT × FileContent) (szURL szFileName : String) (w : World) :
    HRESULT × World :=
  let w1 : World := { w with trace := w.trace ++ [Effect.URLDownloadToFile szURL szFileName] }
  if outcome.1 = S_OK then (outcome.1, { w1 with files := w1.files.set szFileName outcome.2 })
  else (outcome.1, w1)

/-- The call `ShellExecuteEx(&info)` with `lpFile = strFileName`: the call is
recorded. -/
def ShellExecuteEx (env : Env) (lpFile : String) (w : World) : Bool × World :=
  (env.ShellExecuteEx, { w with trace := w.trace ++ [Effect.ShellExecuteEx lpFile] })

/-! ## `CString::Replace` -/

/-- Left-to-right scan of `CString::Replace`: `skip` characters of a matched
occurrence are still to be dropped. -/
def replaceFrom (old new : List Char) : Nat → List Char → List Char
  | _, [] => []
  | skip + 1, _ :: cs => replaceFrom old new skip cs
  | 0, c :: cs =>
    if old.isPrefixOf (c :: cs) then new ++ replaceFrom old new (old.length - 1) cs
    else c :: replaceFrom old new 0 cs

/-- The method `CString::Replace(old, new)`: every occurrence of `old`, found left to
right without overlap, is replaced; an empty `old` changes nothing. -/
def CString.Replace (s old new : String) : String :=
  if old.data = [] then s else ⟨replaceFrom old.data new.data 0 s.data⟩

/-! ## `std::filesystem::path` (Windows)

The two modifiers used by `GetAppSettingsFilePath`, after the standard library
shipped with the compiler the project is built with: a path is its text, and
the parts are found by scanning it. -/

/-- A directory separator: backslash or slash. -/
def isSlash (c : Char) : Bool := c == '\\' || c == '/'

/-- The text starts with a drive letter and a colon. -/
def startsWithDriveLetter : List Char → Bool
  | c0 :: c1 :: _ => c0.isAlpha && c1 == ':'
  | _ => false

/-- Index of the end of the root-name (`X:`, `\\?`, `\\.`, `\??`, `\\server`),
0 when there is none. -/
def findRootNameEnd (p : List Char) : Nat :=
  if p.length < 2 then 0
  else if startsWithDriveLetter p then 2
  else if !isSlash (p.getD 0 ' ') then 0
  else if decide (4 ≤ p.length) && isSlash (p.getD 3 ' ')
      && (p.length == 4 || !isSlash (p.getD 4 ' '))
      && ((isSlash (p.getD 1 ' ') && (p.getD 2 ' ' == '?' || p.getD 2 ' ' == '.'))
          || (p.getD 1 ' ' == '?' && p.getD 2 ' ' == '?')) then 3
  else if decide (3 ≤ p.length) && isSlash (p.getD 1 ' ') && !isSlash (p.getD 2 ' ') then
    3 + ((p.drop 3).takeWhile (fun c => !isSlash c)).length
  else 0

/-- Index where the relative path starts: after the root-name and the
separators that follow it. -/
def findRelativePath (p : List Char) : Nat :=
  let r := findRootNameEnd p
  r + ((p.drop r).takeWhile isSlash).length

/-- Index where the filename starts: after the last separator of the relative
path. -/
def findFilename (p : List Char) : Nat :=
  p.length - (((p.drop (findRelativePath p)).reverse.takeWhile (fun c => !isSlash c)).length)

/-- Rightmost dot of `name` among the indices `i, i-1, ..., 1`. -/
def lastDotFrom (name : List Char) : Nat → Option Nat
  | 0 => none
  | i + 1 => if name.getD (i + 1) ' ' == '.' then some (i + 1) else lastDotFrom name i

/-- Index, within a filename, where the extension starts; the length of the
filename when it has no extension (no dot, a leading dot only, `.` or `..`). -/
def findExtension (name : List Char) : Nat :=
  if name.length ≤ 1 then name.length
  else if name.getD (name.length - 1) ' ' == '.' then
    if name.length == 2 && name.getD 0 ' ' == '.' then name.length else name.length - 1
  else
    match lastDotFrom name (name.length - 2) with
    | some i => i
    | none => name.length

/-- The method `path::is_absolute`. -/
def is_absolute (p : List Char) : Bool :=
  if startsWithDriveLetter p then decide (3 ≤ p.length) && isSlash (p.getD 2 ' ')
  else findRootNameEnd p != 0

/-- The method `path::remove_filename`. -/
def remove_filename (p : List Char) : List Char := p.take (findFilename p)

/-- The operator `path::operator/=`. -/
def pathAppend (p other : List Char) : List Char :=
  if is_absolute other then other
  else
    let myRoot := findRootNameEnd p
    let otherRoot := findRootNameEnd other
    if otherRoot != 0 && p.take myRoot != other.take otherRoot then other
    else
      let base :=
        if decide (otherRoot < other.length) && isSlash (other.getD otherRoot ' ') then p.take myRoot
        else if myRoot == p.length then (if decide (3 ≤ myRoot) then p ++ ['\\'] else p)
        else if !isSlash (p.getD (p.length - 1) ' ') then p ++ ['\\']
        else p
      base ++ other.drop otherRoot

/-- The method `path::replace_filename`. -/
def replace_filename (p replacement : List Char) : List Char :=
  pathAppend (remove_filename p) replacement

/-- The method `path::replace_extension`: the extension of the filename (and
what follows it) is erased, a dot is added unless the replacement is empty or
starts with one, and the replacement is concatenated. -/
def replace_extension (p replacement : List Char) : List Char :=
  let f := findFilename p
  let name := (p.drop f).takeWhile (fun c => c != ':')
  let t := p.take (f + findExtension name)
  match replacement with
  | [] => t
  | c :: _ => if c != '.' then t ++ ['.'] ++ replacement else t ++ replacement

/-! ## The functions of `genUp4win.cpp` -/

/-- The function `GetAppSettingsFilePath` (genUp4win.cpp, lines 45-64). -/
def GetAppSettingsFilePath (env : Env) (strFilePath strProductName : String) : String :=
  if env.SHGetKnownFolderPath.1 = S_OK then
    env.SHGetKnownFolderPath.2 ++ "\\" ++ strProductName ++ ".xml"
  else
    let strFullPath := replace_filename strFilePath.data strProductName.data
    ⟨replace_extension strFullPath ".xml".data⟩

/-- The function `WriteConfigFile` (genUp4win.cpp, lines 73-107). -/
def WriteConfigFile (k : Macros) (env : Env) (strFilePath strDownloadURL : String) (w : World) : Bool × World :=
  match env.Load strFilePath with
  | none => (false, w)
  | some pVersionInfo =>
    let strProductName := pVersionInfo.ProductName
    let hr := env.CoInitialize
    if FAILED hr then (false, ParentCallback GENUP4WIN_ERROR (env.ErrorMessage hr) w)
    else
      let sXMLFile := GetAppSettingsFilePath env strFilePath strProductName
      match CXMLAppSettings.WriteString w.files sXMLFile strProductName k.VERSION_ENTRY_ID
          pVersionInfo.ProductVersionAsString with
      | Except.error e => (false, ParentCallback GENUP4WIN_ERROR (env.GetErrorMessage e) w)
      | Except.ok files1 =>
        match CXMLAppSettings.WriteString files1 sXMLFile strProductName k.DOWNLOAD_ENTRY_ID
            strDownloadURL with
        | Except.error e =>
          (false, ParentCallback GENUP4WIN_ERROR (env.GetErrorMessage e) { w with files := files1 })
        | Except.ok files2 => (true, { w with files := files2 })

/-- Result of `ReadConfigFile`: the return value and the two output
parameters as they stand on return. -/
structure ReadResult where
  retVal : Bool
  strLatestVersion : String
  strDownloadURL : String
  deriving DecidableEq

/-- The function `ReadConfigFile` (genUp4win.cpp, lines 119-174). The last two string
arguments are the values of the output parameters on entry. -/
def ReadConfigFile (k : Macros) (env : Env) (strConfigURL strProductName strLatestVersion strDownloadURL : String)
    (w : World) : ReadResult × World :=
  if 0 < env.cfgTempPath.1 then
    let lpszTempPath := env.cfgTempPath.2
    if 0 < (env.cfgTempFileName lpszTempPath).1 then
      let lpszFilePath := (env.cfgTempFileName lpszTempPath).2
      let strFileName := CString.Replace lpszFilePath ".tmp" ".xml"
      let w1 := reportInProgress env IDS_CONNECTING w
      let dl := URLDownloadToFile env.cfgDownload strConfigURL strFileName w1
      let hResult := dl.1
      let w2 := dl.2
      if hResult = S_OK then
        let hr := env.CoInitialize
        if FAILED hr then
          (⟨false, strLatestVersion, strDownloadURL⟩,
            ParentCallback GENUP4WIN_ERROR (env.ErrorMessage hr) w2)
        else
          match CXMLAppSettings.GetString w2.files strFileName strProductName k.VERSION_ENTRY_ID with
          | Except.error e =>
            (⟨false, strLatestVersion, strDownloadURL⟩,
              ParentCallback GENUP4WIN_ERROR (env.GetErrorMessage e) w2)
          | Except.ok version =>
            match CXMLAppSettings.GetString w2.files strFileName strProductName
                k.DOWNLOAD_ENTRY_ID with
            | Except.error e =>
              (⟨false, version, strDownloadURL⟩,
                ParentCallback GENUP4WIN_ERROR (env.GetErrorMessage e) w2)
            | Except.ok url => (⟨true, version, url⟩, w2)
      else
        (⟨false, strLatestVersion, strDownloadURL⟩,
          ParentCallback GENUP4WIN_ERROR (env.ErrorMessage hResult) w2)
    else (⟨false, strLatestVersion, strDownloadURL⟩, w)
  else (⟨false, strLatestVersion, strDownloadURL⟩, w)

/-- The function `CheckForUpdates` (genUp4win.cpp, lines 184-246). -/
def CheckForUpdates (k : Macros) (env : Env) (strFilePath strConfigURL : String) (w : World) : Bool × World :=
  match env.Load strFilePath with
  | none => (false, w)
  | some pVersionInfo =>
    let strProductName := pVersionInfo.ProductName
    let rd := ReadConfigFile k env strConfigURL strProductName "" "" w
    let w1 := rd.2
    if rd.1.retVal then
      let bNewUpdateFound := rd.1.strLatestVersion != pVersionInfo.ProductVersionAsString
      if bNewUpdateFound then
        if 0 < env.updTempPath.1 then
          let lpszTempPath := env.updTempPath.2
          if 0 < (env.updTempFileName lpszTempPath).1 then
            let lpszFilePath := (env.updTempFileName lpszTempPath).2
            let strFileName := CString.Replace lpszFilePath ".tmp" k.DEFAULT_EXTENSION
            let w2 := reportInProgress env IDS_DOWNLOADING w1
            let dl := URLDownloadToFile env.updDownload rd.1.strDownloadURL strFileName w2
            let hResult := dl.1
            let w3 := dl.2
            if hResult = S_OK then
              let sh := ShellExecuteEx env strFileName w3
              let bLauched := sh.1
              let w4 := reportInProgress env (if bLauched then IDS_SUCCESS else IDS_FAILED) sh.2
              (true, w4)
            else (false, ParentCallback GENUP4WIN_ERROR (env.ErrorMessage hResult) w3)
          else (false, w1)
        else (false, w1)
      else (false, w1)
    else (false, w1)

/-! ## Reading a trace -/

/-- The status events of a trace: the `(status, message)` pairs passed to the
callback, in order. -/
def events : List Effect → List (GENUP4WIN_STATUS × String)
  | [] => []
  | Effect.ParentCallback status strMessage :: t => (status, strMessage) :: events t
  | _ :: t => events t

/-- The downloads of a trace: the `(URL, file)` pairs passed to
`URLDownloadToFile`, in order. -/
def downloads : List Effect → List (String × String)
  | [] => []
  | Effect.URLDownloadToFile szURL szFileName :: t => (szURL, szFileName) :: downloads t
  | _ :: t => downloads t

/-- The launches of a trace: the files passed to `ShellExecuteEx`, in order. -/
def launches : List Effect → List String
  | [] => []
  | Effect.ShellExecuteEx lpFile :: t => lpFile :: launches t
  | _ :: t => launches t

/-- The Error events of a trace. -/
def errorEvents (t : List Effect) : List (GENUP4WIN_STATUS × String) :=
  (events t).filter (fun e => e.1 = GENUP4WIN_ERROR)

/-- The file `ReadConfigFile` downloads the manifest to and parses. -/
def cfgFileName (env : Env) : String :=
  CString.Replace (env.cfgTempFileName env.cfgTempPath.2).2 ".tmp" ".xml"

/-- The file `CheckForUpdates` downloads the payload to and launches. -/
def updFileName (k : Macros) (env : Env) : String :=
  CString.Replace (env.updTempFileName env.updTempPath.2).2 ".tmp" k.DEFAULT_EXTENSION

/-- The effects of `reportInProgress`: one callback when the string loads. -/
def inProgressEffects (env : Env) (id : ResId) : List Effect :=
  match env.LoadString id with
  | some strStatusMessage => [Effect.ParentCallback GENUP4WIN_INPROGRESS strStatusMessage]
  | none => []

/-- The status events of `reportInProgress`. -/
def inProgressEvents (env : Env) (id : ResId) : List (GENUP4WIN_STATUS × String) :=
  match env.LoadString id with
  | some strStatusMessage => [(GENUP4WIN_INPROGRESS, strStatusMessage)]
  | none => []

/-- The value of an entry in a file: `none` unless the file is a document that
has the section and the entry. -/
def entryOf (c : Option FileContent) (lpszSection lpszEntry : String) : Option String :=
  match c with
  | some (FileContent.xml d) => (d.lookup lpszSection).bind (fun s => s.lookup lpszEntry)
  | _ => none

/-! ## Sample environments for the concrete instances -/

/-- Sample values for the macros. -/
def sampleMacros : Macros := ⟨"Version", "Download", ".msi"⟩

/-- A manifest document with one entry, for product `Foo`. -/
def sampleManifest (latest : String) : FileContent :=
  FileContent.xml [("Foo", [("Version", latest), ("Download", "http://x/y.msi")])]

/-- The four status messages of the sample string table. -/
def sampleLoadString : ResId → Option String
  | IDS_CONNECTING => some "connecting"
  | IDS_DOWNLOADING => some "downloading"
  | IDS_SUCCESS => some "success"
  | IDS_FAILED => some "failed"

/-- An environment in which every external step succeeds: the binary is
product `Foo` at version `installed`, the manifest names version `latest`. -/
def sampleEnv (installed latest : String) : Env where
  Load := fun _ => some ⟨"Foo", installed⟩
  SHGetKnownFolderPath := (S_OK, "C:\\Users\\u")
  CoInitialize := S_OK
  LoadString := sampleLoadString
  ErrorMessage := fun hr => if hr = -2146697211 then "resource not found" else "unspecified error"
  GetErrorMessage := fun e =>
    match e with
    | StoreError.EntryNotFound => "entry not found"
    | StoreError.ParseError => "parse error"
  cfgTempPath := (8, "C:\\Temp\\")
  cfgTempFileName := fun lpszTempPath => (1, lpszTempPath ++ "GUP1.tmp")
  cfgDownload := (S_OK, sampleManifest latest)
  updTempPath := (8, "C:\\Temp\\")
  updTempFileName := fun lpszTempPath => (2, lpszTempPath ++ "GUP2.tmp")
  updDownload := (S_OK, FileContent.other)
  ShellExecuteEx := true

/-- The empty file system. -/
def noFiles : Files := fun _ => none

/-- The sample environment in which `GetTempFileName` fails for the payload. -/
def envNoPayloadTemp : Env :=
  { sampleEnv "2.0.0.0" "2.0.0.1" with updTempFileName := fun _ => (0, "") }

/-- The sample environment in which the launch of the payload fails. -/
def envLaunchFails : Env :=
  { sampleEnv "2.0.0.0" "2.0.0.1" with ShellExecuteEx := false }

/-- The sample environment in which the manifest download fails with
`INET_E_RESOURCE_NOT_FOUND`. -/
def envManifestFails : Env :=
  { sampleEnv "2.0.0.0" "2.0.0.1" with cfgDownload := (-2146697211, FileContent.other) }

/-- The sample environment in which `CVersionInfo::Load` returns false. -/
def envNoVersion : Env :=
  { sampleEnv "2.0.0.0" "2.0.0.1" with Load := fun _ => none }

/-- The sample environment for a binary of product `Bar`, which the sample
manifest does not list. -/
def envOtherProduct : Env :=
  { sampleEnv "2.0.0.0" "2.0.0.1" with Load := fun _ => some ⟨"Bar", "2.0.0.0"⟩ }

/-- The sample environment in which the payload download fails with
`INET_E_RESOURCE_NOT_FOUND`. -/
def envPayloadFails : Env :=
  { sampleEnv "2.0.0.0" "2.0.0.1" with updDownload := (-2146697211, FileContent.other) }

/-- The sample environment in which the profile folder does not resolve
(`SHGetKnownFolderPath` returns `E_FAIL`). -/
def envNoProfile : Env :=
  { sampleEnv "1.0.0.0" "1.0.0.0" with SHGetKnownFolderPath := (-2147467259, "") }

/-- The sample environment whose temp directory is `C:\my.tmp\`: the temp
file allocated for the manifest is `C:\my.tmp\GUP1.tmp`. -/
def envTmpDirectory : Env :=
  { sampleEnv "2.0.0.0" "2.0.0.1" with cfgTempPath := (10, "C:\\my.tmp\\") }

/-! ## `CenterWindow` (DemoApp.cpp) -/

/-- The Win32 `RECT`: four `LONG` fields. -/
structure RECT where
  left : Int
  top : Int
  right : Int
  bottom : Int
  deriving DecidableEq

/-- The arguments `CenterWindow` passes to `MoveWindow` (after the window
handle; the repaint flag is `FALSE`). -/
structure MoveWindowArgs where
  X : Int
  Y : Int
  nWidth : Int
  nHeight : Int
  deriving DecidableEq

/-- The value of an `int` expression whose mathematical result is `x`: the
32-bit two's-complement result. -/
def toInt32 (x : Int) : Int := (x + 2147483648) % 4294967296 - 2147483648

/-- The function `CenterWindow` (DemoApp.cpp, lines 249-281). The first
argument is the rectangle of the parent, `none` when `GetParent` returns NULL;
then the rectangle of the window and the two screen metrics. The result is
the returned `BOOL` and the arguments of the `MoveWindow` call, if any. -/
def CenterWindow (hwndParent : Option RECT) (rectWindow : RECT)
    (nScreenWidth nScreenHeight : Int) : Bool × Option MoveWindowArgs :=
  match hwndParent with
  | some rectParent =>
    let nWidth := toInt32 (rectWindow.right - rectWindow.left)
    let nHeight := toInt32 (rectWindow.bottom - rectWindow.top)
    let nX := toInt32
      (Int.tdiv (toInt32 (toInt32 (rectParent.right - rectParent.left) - nWidth)) 2
        + rectParent.left)
    let nY := toInt32
      (Int.tdiv (toInt32 (toInt32 (rectParent.bottom - rectParent.top) - nHeight)) 2
        + rectParent.top)
    let nX := if nX < 0 then 0 else nX
    let nY := if nY < 0 then 0 else nY
    let nX := if toInt32 (nX + nWidth) > nScreenWidth then toInt32 (nScreenWidth - nWidth) else nX
    let nY :=
      if toInt32 (nY + nHeight) > nScreenHeight then toInt32 (nScreenHeight - nHeight) else nY
    (true, some ⟨nX, nY, nWidth, nHeight⟩)
  | none => (false, none)

/-- The four coordinates of a rectangle lie within `±2^28`. -/
abbrev RECT.within (r : RECT) : Prop :=
  (-268435456 ≤ r.left ∧ r.left ≤ 268435456) ∧ (-268435456 ≤ r.top ∧ r.top ≤ 268435456)
  ∧ (-268435456 ≤ r.right ∧ r.right ≤ 268435456)
  ∧ (-268435456 ≤ r.bottom ∧ r.bottom ≤ 268435456)

/-! ## Auxiliary lemmas -/

theorem events_append (a b : List Effect) : events (a ++ b) = events a ++ events b := by
  induction a with
  | nil => rfl
  | cons e t ih => cases e <;> simp [events, ih]

theorem downloads_append (a b : List Effect) : downloads (a ++ b) = downloads a ++ downloads b := by
  induction a with
  | nil => rfl
  | cons e t ih => cases e <;> simp [downloads, ih]

theorem launches_append (a b : List Effect) : launches (a ++ b) = launches a ++ launches b := by
  induction a with
  | nil => rfl
  | cons e t ih => cases e <;> simp [launches, ih]

theorem errorEvents_append (a b : List Effect) :
    errorEvents (a ++ b) = errorEvents a ++ errorEvents b := by
  simp [errorEvents, events_append]

theorem events_inProgressEffects (env : Env) (id : ResId) :
    events (inProgressEffects env id) = inProgressEvents env id := by
  unfold inProgressEffects inProgressEvents
  cases env.LoadString id <;> rfl

theorem downloads_inProgressEffects (env : Env) (id : ResId) :
    downloads (inProgressEffects env id) = [] := by
  unfold inProgressEffects
  cases env.LoadString id <;> rfl

theorem launches_inProgressEffects (env : Env) (id : ResId) :
    launches (inProgressEffects env id) = [] := by
  unfold inProgressEffects
  cases env.LoadString id <;> rfl

theorem errorEvents_inProgressEffects (env : Env) (id : ResId) :
    errorEvents (inProgressEffects env id) = [] := by
  unfold inProgressEffects errorEvents
  cases env.LoadString id <;> simp [events]

theorem reportInProgress_trace (env : Env) (id : ResId) (w : World) :
    (reportInProgress env id w).trace = w.trace ++ inProgressEffects env id := by
  unfold reportInProgress inProgressEffects
  cases env.LoadString id <;> simp [ParentCallback]

theorem reportInProgress_files (env : Env) (id : ResId) (w : World) :
    (reportInProgress env id w).files = w.files := by
  unfold reportInProgress
  cases env.LoadString id <;> simp [ParentCallback]

/-- What a successful `ReadConfigFile` has gone through, and what it has done:
both temp calls gave a non-zero length, the download returned `S_OK`,
`CoInitialize` did not fail, both entries were read from the downloaded file,
and the trace grew by the connecting report and the one download. -/
theorem ReadConfigFile_of_true (k : Macros) (env : Env)
    (strConfigURL strProductName lv du : String) (w : World)
    (h : (ReadConfigFile k env strConfigURL strProductName lv du w).1.retVal = true) :
    0 < env.cfgTempPath.1 ∧ 0 < (env.cfgTempFileName env.cfgTempPath.2).1
    ∧ env.cfgDownload.1 = S_OK ∧ FAILED env.CoInitialize = false
    ∧ CXMLAppSettings.GetString (w.files.set (cfgFileName env) env.cfgDownload.2)
        (cfgFileName env) strProductName k.VERSION_ENTRY_ID
        = Except.ok (ReadConfigFile k env strConfigURL strProductName lv du w).1.strLatestVersion
    ∧ CXMLAppSettings.GetString (w.files.set (cfgFileName env) env.cfgDownload.2)
        (cfgFileName env) strProductName k.DOWNLOAD_ENTRY_ID
        = Except.ok (ReadConfigFile k env strConfigURL strProductName lv du w).1.strDownloadURL
    ∧ (ReadConfigFile k env strConfigURL strProductName lv du w).2.trace
        = w.trace ++ inProgressEffects env IDS_CONNECTING
          ++ [Effect.URLDownloadToFile strConfigURL (cfgFileName env)] := by
  unfold ReadConfigFile at h ⊢
  simp only [URLDownloadToFile, cfgFileName] at h ⊢
  split at h
  · split at h
    · split at h
      · split at h
        · simp at h
        · split at h
          · simp at h
          · split at h
            · simp at h
            · simp_all [reportInProgress_trace, reportInProgress_files]
      · simp at h
    · simp at h
  · simp at h

/-- A run that finds an update and obtains the payload temp file: the return
value is whether the payload download returned `S_OK`, and the trace is the
manifest fetch, the downloading report, the payload download, and then either
the launch with its report or the Error callback. -/
theorem CheckForUpdates_update_found (k : Macros) (env : Env)
    (strFilePath strConfigURL : String) (files : Files) (pVersionInfo : CVersionInfo)
    (hLoad : env.Load strFilePath = some pVersionInfo)
    (hRead : (ReadConfigFile k env strConfigURL pVersionInfo.ProductName "" ""
        (World.start files)).1.retVal = true)
    (hNe : (ReadConfigFile k env strConfigURL pVersionInfo.ProductName "" ""
        (World.start files)).1.strLatestVersion ≠ pVersionInfo.ProductVersionAsString)
    (hPath : 0 < env.updTempPath.1)
    (hName : 0 < (env.updTempFileName env.updTempPath.2).1) :
    (CheckForUpdates k env strFilePath strConfigURL (World.start files)).1
        = decide (env.updDownload.1 = S_OK)
    ∧ (CheckForUpdates k env strFilePath strConfigURL (World.start files)).2.trace
        = inProgressEffects env IDS_CONNECTING
          ++ [Effect.URLDownloadToFile strConfigURL (cfgFileName env)]
          ++ inProgressEffects env IDS_DOWNLOADING
          ++ [Effect.URLDownloadToFile
                (ReadConfigFile k env strConfigURL pVersionInfo.ProductName "" ""
                  (World.start files)).1.strDownloadURL (updFileName k env)]
          ++ (if env.updDownload.1 = S_OK then
                Effect.ShellExecuteEx (updFileName k env)
                  :: inProgressEffects env (if env.ShellExecuteEx then IDS_SUCCESS else IDS_FAILED)
              else [Effect.ParentCallback GENUP4WIN_ERROR (env.ErrorMessage env.updDownload.1)]) := by
  have hT := (ReadConfigFile_of_true k env strConfigURL pVersionInfo.ProductName "" ""
    (World.start files) hRead).2.2.2.2.2.2
  simp only [World.start, List.nil_append] at hT hRead hNe
  unfold CheckForUpdates
  simp only [hLoad, World.start, hRead, hNe, hPath, hName, if_true, bne_iff_ne, ne_eq,
    not_false_eq_true, URLDownloadToFile, ShellExecuteEx, updFileName, reportInProgress_trace, hT]
  by_cases hd : env.updDownload.1 = S_OK
  · simp [hd, reportInProgress_trace, hT]
  · simp [hd, reportInProgress_trace, hT, ParentCallback]

/-- A run whose `ReadConfigFile` returns false ends there: the result is false
and nothing more is done. -/
theorem CheckForUpdates_of_read_false (k : Macros) (env : Env)
    (strFilePath strConfigURL : String) (w : World) (pVersionInfo : CVersionInfo)
    (hLoad : env.Load strFilePath = some pVersionInfo)
    (hRead : (ReadConfigFile k env strConfigURL pVersionInfo.ProductName "" "" w).1.retVal
        = false) :
    CheckForUpdates k env strFilePath strConfigURL w
      = (false, (ReadConfigFile k env strConfigURL pVersionInfo.ProductName "" "" w).2) := by
  unfold CheckForUpdates
  simp [hLoad, hRead]

/-- The result of `ReadConfigFile` when the manifest download does not return `S_OK`: false,
output parameters untouched, and the trace is the connecting report, the
download and the Error callback with the message of the result. -/
theorem ReadConfigFile_download_failed (k : Macros) (env : Env)
    (strConfigURL strProductName lv du : String) (w : World)
    (hPath : 0 < env.cfgTempPath.1)
    (hName : 0 < (env.cfgTempFileName env.cfgTempPath.2).1)
    (hDownload : env.cfgDownload.1 ≠ S_OK) :
    (ReadConfigFile k env strConfigURL strProductName lv du w).1 = ⟨false, lv, du⟩
    ∧ (ReadConfigFile k env strConfigURL strProductName lv du w).2.trace
        = w.trace ++ inProgressEffects env IDS_CONNECTING
          ++ [Effect.URLDownloadToFile strConfigURL (cfgFileName env),
              Effect.ParentCallback GENUP4WIN_ERROR (env.ErrorMessage env.cfgDownload.1)] := by
  unfold ReadConfigFile
  simp [hPath, hName, hDownload, URLDownloadToFile, ParentCallback, reportInProgress_trace,
    cfgFileName]

/-- The result of `ReadConfigFile` when the downloaded document has no section for the
product name: false, output parameters untouched, and the trace is the
connecting report, the download and one Error callback. -/
theorem ReadConfigFile_missing_entry (k : Macros) (env : Env)
    (strConfigURL strProductName lv du : String) (w : World) (d : Doc)
    (hPath : 0 < env.cfgTempPath.1)
    (hName : 0 < (env.cfgTempFileName env.cfgTempPath.2).1)
    (hDownload : env.cfgDownload = (S_OK, FileContent.xml d))
    (hMissing : d.lookup strProductName = none) :
    (ReadConfigFile k env strConfigURL strProductName lv du w).1 = ⟨false, lv, du⟩
    ∧ (ReadConfigFile k env strConfigURL strProductName lv du w).2.trace
        = w.trace ++ inProgressEffects env IDS_CONNECTING
          ++ [Effect.URLDownloadToFile strConfigURL (cfgFileName env),
              Effect.ParentCallback GENUP4WIN_ERROR
                (if FAILED env.CoInitialize then env.ErrorMessage env.CoInitialize
                 else env.GetErrorMessage StoreError.EntryNotFound)] := by
  unfold ReadConfigFile
  by_cases hCo : FAILED env.CoInitialize = true
  · simp [hPath, hName, hDownload, hCo, URLDownloadToFile, ParentCallback,
      reportInProgress_trace, cfgFileName]
  · simp [hPath, hName, hDownload, hCo, hMissing, URLDownloadToFile, ParentCallback,
      reportInProgress_trace, cfgFileName, CXMLAppSettings.GetString, Files.set]

/-- The result of `ReadConfigFile` when every step succeeds: true, with the two values read
from the downloaded file. -/
theorem ReadConfigFile_of_success (k : Macros) (env : Env)
    (strConfigURL strProductName lv du version url : String) (w : World)
    (hPath : 0 < env.cfgTempPath.1)
    (hName : 0 < (env.cfgTempFileName env.cfgTempPath.2).1)
    (hDownload : env.cfgDownload.1 = S_OK)
    (hCo : FAILED env.CoInitialize = false)
    (hVersion : CXMLAppSettings.GetString (w.files.set (cfgFileName env) env.cfgDownload.2)
        (cfgFileName env) strProductName k.VERSION_ENTRY_ID = Except.ok version)
    (hURL : CXMLAppSettings.GetString (w.files.set (cfgFileName env) env.cfgDownload.2)
        (cfgFileName env) strProductName k.DOWNLOAD_ENTRY_ID = Except.ok url) :
    (ReadConfigFile k env strConfigURL strProductName lv du w).1 = ⟨true, version, url⟩ := by
  unfold ReadConfigFile
  simp only [cfgFileName] at hVersion hURL
  simp [hPath, hName, hDownload, hCo, URLDownloadToFile, reportInProgress_files, hVersion, hURL]

/-- Looking up the key just upserted gives the new value. -/
theorem lookup_upsert_self {β : Type} (key : String) (f : Option β → β)
    (l : List (String × β)) : (upsert key f l).lookup key = some (f (l.lookup key)) := by
  induction l with
  | nil => simp [upsert, List.lookup]
  | cons p rest ih =>
    obtain ⟨k1, v1⟩ := p
    by_cases h : k1 = key
    · subst h
      simp [upsert, List.lookup]
    · have h2 : (key == k1) = false := by simpa using fun e => h e.symm
      simp [upsert, h, List.lookup, h2, ih]

/-- An upsert leaves the other keys as they were. -/
theorem lookup_upsert_ne {β : Type} (key other : String) (f : Option β → β)
    (l : List (String × β)) (hne : other ≠ key) :
    (upsert key f l).lookup other = l.lookup other := by
  induction l with
  | nil =>
    have h2 : (other == key) = false := by simpa using hne
    simp [upsert, List.lookup, h2]
  | cons p rest ih =>
    obtain ⟨k1, v1⟩ := p
    by_cases h : k1 = key
    · subst h
      have h2 : (other == k1) = false := by simpa using hne
      simp [upsert, List.lookup, h2]
    · by_cases h3 : other = k1
      · subst h3
        simp [upsert, h, List.lookup]
      · have h4 : (other == k1) = false := by simpa using h3
        simp [upsert, h, List.lookup, h4, ih]

/-- After a successful `WriteString`, the written entry has the written
value. -/
theorem WriteString_entry_self (files files1 : Files)
    (sXMLFile lpszSection lpszEntry lpszValue : String)
    (h : CXMLAppSettings.WriteString files sXMLFile lpszSection lpszEntry lpszValue
        = Except.ok files1) :
    entryOf (files1 sXMLFile) lpszSection lpszEntry = some lpszValue := by
  unfold CXMLAppSettings.WriteString at h
  split at h
  · injection h with h
    subst h
    simp [Files.set, entryOf, List.lookup]
  · injection h with h
    subst h
    simp [Files.set, entryOf, lookup_upsert_self]
  · cases h

/-- After a successful `WriteString`, the other entries of the section are as
before. -/
theorem WriteString_entry_other (files files1 : Files)
    (sXMLFile lpszSection lpszEntry lpszValue other : String)
    (h : CXMLAppSettings.WriteString files sXMLFile lpszSection lpszEntry lpszValue
        = Except.ok files1)
    (hne : other ≠ lpszEntry) :
    entryOf (files1 sXMLFile) lpszSection other = entryOf (files sXMLFile) lpszSection other := by
  unfold CXMLAppSettings.WriteString at h
  split at h
  · rename_i hNone
    injection h with h
    subst h
    have h2 : (other == lpszEntry) = false := by simpa using hne
    simp [Files.set, entryOf, List.lookup, hNone, h2]
  · rename_i d hSome
    injection h with h
    subst h
    simp only [Files.set, entryOf, hSome, if_true, lookup_upsert_self, Option.bind_some]
    cases hS : List.lookup lpszSection d with
    | none =>
      have h2 : (other == lpszEntry) = false := by simpa using hne
      simp [upsert, List.lookup, h2]
    | some sec => simp [lookup_upsert_ne _ _ _ _ hne]
  · cases h

/-- The method `GetString` returns the value of an entry that the file has. -/
theorem GetString_of_entryOf (files : Files) (sXMLFile lpszSection lpszEntry value : String)
    (h : entryOf (files sXMLFile) lpszSection lpszEntry = some value) :
    CXMLAppSettings.GetString files sXMLFile lpszSection lpszEntry = Except.ok value := by
  unfold entryOf at h
  unfold CXMLAppSettings.GetString
  split at h
  · rename_i d hSome
    cases hS : List.lookup lpszSection d with
    | none => simp [hS] at h
    | some sec =>
      rw [hS] at h
      have h5 : List.lookup lpszEntry sec = some value := by simpa using h
      simp [h5]
  · cases h

/-- What a successful `WriteConfigFile` has done: in the settings file, the
section of the product name holds the version under `VERSION_ENTRY_ID` and the
URL under `DOWNLOAD_ENTRY_ID`. -/
theorem WriteConfigFile_of_true (k : Macros) (env : Env)
    (strFilePath strDownloadURL : String) (w : World) (pVersionInfo : CVersionInfo)
    (hIds : k.VERSION_ENTRY_ID ≠ k.DOWNLOAD_ENTRY_ID)
    (hLoad : env.Load strFilePath = some pVersionInfo)
    (h : (WriteConfigFile k env strFilePath strDownloadURL w).1 = true) :
    entryOf ((WriteConfigFile k env strFilePath strDownloadURL w).2.files
        (GetAppSettingsFilePath env strFilePath pVersionInfo.ProductName))
        pVersionInfo.ProductName k.VERSION_ENTRY_ID = some pVersionInfo.ProductVersionAsString
    ∧ entryOf ((WriteConfigFile k env strFilePath strDownloadURL w).2.files
        (GetAppSettingsFilePath env strFilePath pVersionInfo.ProductName))
        pVersionInfo.ProductName k.DOWNLOAD_ENTRY_ID = some strDownloadURL := by
  have hCo : FAILED env.CoInitialize = false := by
    cases hC : FAILED env.CoInitialize with
    | false => rfl
    | true => simp [WriteConfigFile, hLoad, hC] at h
  cases h1 : CXMLAppSettings.WriteString w.files
      (GetAppSettingsFilePath env strFilePath pVersionInfo.ProductName) pVersionInfo.ProductName
      k.VERSION_ENTRY_ID pVersionInfo.ProductVersionAsString with
  | error e => simp [WriteConfigFile, hLoad, hCo, h1] at h
  | ok files1 =>
    cases h2 : CXMLAppSettings.WriteString files1
        (GetAppSettingsFilePath env strFilePath pVersionInfo.ProductName)
        pVersionInfo.ProductName k.DOWNLOAD_ENTRY_ID strDownloadURL with
    | error e => simp [WriteConfigFile, hLoad, hCo, h1, h2] at h
    | ok files2 =>
      have hFiles : (WriteConfigFile k env strFilePath strDownloadURL w).2.files = files2 := by
        simp [WriteConfigFile, hLoad, hCo, h1, h2]
      rw [hFiles]
      refine ⟨?_, WriteString_entry_self _ _ _ _ _ _ h2⟩
      rw [WriteString_entry_other _ _ _ _ _ _ _ h2 hIds]
      exact WriteString_entry_self _ _ _ _ _ _ h1

/-- The profile branch of `GetAppSettingsFilePath`: when the profile folder
resolves, the result is the folder, a backslash, the product name and `.xml`,
whatever the fallback path and the product name are. -/
theorem GetAppSettingsFilePath_profile (env : Env) (strFilePath strProductName : String)
    (h : env.SHGetKnownFolderPath.1 = S_OK) :
    GetAppSettingsFilePath env strFilePath strProductName
      = env.SHGetKnownFolderPath.2 ++ "\\" ++ strProductName ++ ".xml" := by
  unfold GetAppSettingsFilePath
  simp [h]

/-! ## C1: equal versions -/

/-- C1. When the version read succeeds, `ReadConfigFile` returns true and the
manifest version equals the local version, `CheckForUpdates` returns false, the
only download of the run is the manifest fetch (no payload download), nothing
is launched, no Error event is emitted, and the status events are exactly the
InProgress report of the connecting message made by the manifest fetch. -/
theorem C1_equal_versions_no_update (k : Macros) (env : Env)
    (strFilePath strConfigURL : String) (files : Files) (pVersionInfo : CVersionInfo)
    (hLoad : env.Load strFilePath = some pVersionInfo)
    (hRead : (ReadConfigFile k env strConfigURL pVersionInfo.ProductName "" ""
        (World.start files)).1.retVal = true)
    (hEq : (ReadConfigFile k env strConfigURL pVersionInfo.ProductName "" ""
        (World.start files)).1.strLatestVersion = pVersionInfo.ProductVersionAsString) :
    (CheckForUpdates k env strFilePath strConfigURL (World.start files)).1 = false
    ∧ downloads (CheckForUpdates k env strFilePath strConfigURL (World.start files)).2.trace
        = [(strConfigURL, cfgFileName env)]
    ∧ launches (CheckForUpdates k env strFilePath strConfigURL (World.start files)).2.trace = []
    ∧ errorEvents (CheckForUpdates k env strFilePath strConfigURL (World.start files)).2.trace = []
    ∧ events (CheckForUpdates k env strFilePath strConfigURL (World.start files)).2.trace
        = inProgressEvents env IDS_CONNECTING
    ∧ (∀ strStatusMessage, env.LoadString IDS_CONNECTING = some strStatusMessage →
        events (CheckForUpdates k env strFilePath strConfigURL (World.start files)).2.trace
          = [(GENUP4WIN_INPROGRESS, strStatusMessage)]) := by
  have hT := (ReadConfigFile_of_true k env strConfigURL pVersionInfo.ProductName "" ""
    (World.start files) hRead).2.2.2.2.2.2
  have hRun : CheckForUpdates k env strFilePath strConfigURL (World.start files)
      = (false, (ReadConfigFile k env strConfigURL pVersionInfo.ProductName "" ""
          (World.start files)).2) := by
    unfold CheckForUpdates
    simp [hLoad, hRead, hEq]
  have hTrace : (CheckForUpdates k env strFilePath strConfigURL (World.start files)).2.trace
      = inProgressEffects env IDS_CONNECTING
        ++ [Effect.URLDownloadToFile strConfigURL (cfgFileName env)] := by
    rw [hRun]
    simpa [World.start] using hT
  rw [hTrace]
  refine ⟨by rw [hRun], ?_, ?_, ?_, ?_, ?_⟩
  · simp [downloads_append, downloads_inProgressEffects, downloads]
  · simp [launches_append, launches_inProgressEffects, launches]
  · rw [errorEvents_append, errorEvents_inProgressEffects]; rfl
  · simp [events_append, events_inProgressEffects, events]
  · intro m hm
    simp [events_append, events_inProgressEffects, events, inProgressEvents, hm]

/-- C1 at the scenario of the spec: local and manifest version `3.1.4.1`. -/
theorem C1_equal_versions_no_update_witness :
    (CheckForUpdates sampleMacros (sampleEnv "3.1.4.1" "3.1.4.1") "C:\\app\\Foo.exe"
        "http://x/genUp4win.xml" (World.start noFiles)).1 = false
    ∧ downloads (CheckForUpdates sampleMacros (sampleEnv "3.1.4.1" "3.1.4.1") "C:\\app\\Foo.exe"
        "http://x/genUp4win.xml" (World.start noFiles)).2.trace
        = [("http://x/genUp4win.xml", "C:\\Temp\\GUP1.xml")]
    ∧ events (CheckForUpdates sampleMacros (sampleEnv "3.1.4.1" "3.1.4.1") "C:\\app\\Foo.exe"
        "http://x/genUp4win.xml" (World.start noFiles)).2.trace
        = [(GENUP4WIN_INPROGRESS, "connecting")] :=
  have h := C1_equal_versions_no_update sampleMacros (sampleEnv "3.1.4.1" "3.1.4.1")
    "C:\\app\\Foo.exe" "http://x/genUp4win.xml" noFiles ⟨"Foo", "3.1.4.1"⟩ rfl (by decide) (by decide)
  ⟨h.1, h.2.1.trans (by decide), h.2.2.2.2.2 "connecting" rfl⟩

/-! ## C2: different versions -/

/-- C2, as stated, fails: the version read and the manifest read succeed and
the manifest version `2.0.0.1` differs from the local `2.0.0.0`, but
`GetTempFileName` returns 0 for the payload, so the only download of the run is
the manifest fetch: no payload download is attempted. -/
theorem C2_counterexample :
    envNoPayloadTemp.Load "C:\\app\\Foo.exe" = some ⟨"Foo", "2.0.0.0"⟩
    ∧ (ReadConfigFile sampleMacros envNoPayloadTemp "http://x/genUp4win.xml" "Foo" "" ""
        (World.start noFiles)).1 = ⟨true, "2.0.0.1", "http://x/y.msi"⟩
    ∧ "2.0.0.1" ≠ "2.0.0.0"
    ∧ downloads (CheckForUpdates sampleMacros envNoPayloadTemp "C:\\app\\Foo.exe"
        "http://x/genUp4win.xml" (World.start noFiles)).2.trace
        = [("http://x/genUp4win.xml", "C:\\Temp\\GUP1.xml")]
    ∧ (CheckForUpdates sampleMacros envNoPayloadTemp "C:\\app\\Foo.exe"
        "http://x/genUp4win.xml" (World.start noFiles)).1 = false := by
  decide

/-- C2, amended. When the version read succeeds, `ReadConfigFile` returns true,
the manifest version string is not equal to the local one (plain string
inequality) and the payload temp path and temp file name are both obtained,
`CheckForUpdates` attempts the payload download: the downloads of the run are
the manifest fetch followed by the download of the manifest's download URL to
the payload temp file. -/
theorem C2_different_versions_download (k : Macros) (env : Env)
    (strFilePath strConfigURL : String) (files : Files) (pVersionInfo : CVersionInfo)
    (hLoad : env.Load strFilePath = some pVersionInfo)
    (hRead : (ReadConfigFile k env strConfigURL pVersionInfo.ProductName "" ""
        (World.start files)).1.retVal = true)
    (hNe : (ReadConfigFile k env strConfigURL pVersionInfo.ProductName "" ""
        (World.start files)).1.strLatestVersion ≠ pVersionInfo.ProductVersionAsString)
    (hPath : 0 < env.updTempPath.1)
    (hName : 0 < (env.updTempFileName env.updTempPath.2).1) :
    downloads (CheckForUpdates k env strFilePath strConfigURL (World.start files)).2.trace
      = [(strConfigURL, cfgFileName env),
         ((ReadConfigFile k env strConfigURL pVersionInfo.ProductName "" ""
            (World.start files)).1.strDownloadURL, updFileName k env)] := by
  rw [(CheckForUpdates_update_found k env strFilePath strConfigURL files pVersionInfo
    hLoad hRead hNe hPath hName).2]
  by_cases hd : env.updDownload.1 = S_OK
  · simp [hd, downloads_append, downloads_inProgressEffects, downloads]
  · simp [hd, downloads_append, downloads_inProgressEffects, downloads]

/-- C2, amended, at a manifest version that is lexically and numerically
smaller than the local one: the payload is still downloaded. -/
theorem C2_different_versions_download_witness :
    downloads (CheckForUpdates sampleMacros (sampleEnv "2.0.0.0" "1.0.0.0") "C:\\app\\Foo.exe"
        "http://x/genUp4win.xml" (World.start noFiles)).2.trace
      = [("http://x/genUp4win.xml", "C:\\Temp\\GUP1.xml"), ("http://x/y.msi", "C:\\Temp\\GUP2.msi")] :=
  (C2_different_versions_download sampleMacros (sampleEnv "2.0.0.0" "1.0.0.0") "C:\\app\\Foo.exe"
    "http://x/genUp4win.xml" noFiles ⟨"Foo", "2.0.0.0"⟩ rfl (by decide) (by decide) (by decide)
    (by decide)).trans (by decide)

/-! ## C3: the launch outcome -/

/-- C3. When the payload download of a run succeeds, `CheckForUpdates` returns
true whatever `ShellExecuteEx` returns, the payload is launched once, no Error
event is emitted in the run, and the report of the launch is the InProgress
event of the success or failed message; a failed launch whose message loads is
reported as the final InProgress event carrying the failed message. -/
theorem C3_launch_outcome (k : Macros) (env : Env)
    (strFilePath strConfigURL : String) (files : Files) (pVersionInfo : CVersionInfo)
    (hLoad : env.Load strFilePath = some pVersionInfo)
    (hRead : (ReadConfigFile k env strConfigURL pVersionInfo.ProductName "" ""
        (World.start files)).1.retVal = true)
    (hNe : (ReadConfigFile k env strConfigURL pVersionInfo.ProductName "" ""
        (World.start files)).1.strLatestVersion ≠ pVersionInfo.ProductVersionAsString)
    (hPath : 0 < env.updTempPath.1)
    (hName : 0 < (env.updTempFileName env.updTempPath.2).1)
    (hDownload : env.updDownload.1 = S_OK) :
    (CheckForUpdates k env strFilePath strConfigURL (World.start files)).1 = true
    ∧ launches (CheckForUpdates k env strFilePath strConfigURL (World.start files)).2.trace
        = [updFileName k env]
    ∧ errorEvents (CheckForUpdates k env strFilePath strConfigURL (World.start files)).2.trace = []
    ∧ events (CheckForUpdates k env strFilePath strConfigURL (World.start files)).2.trace
        = inProgressEvents env IDS_CONNECTING ++ inProgressEvents env IDS_DOWNLOADING
          ++ inProgressEvents env (if env.ShellExecuteEx then IDS_SUCCESS else IDS_FAILED)
    ∧ (∀ strStatusMessage, env.ShellExecuteEx = false →
        env.LoadString IDS_FAILED = some strStatusMessage →
        events (CheckForUpdates k env strFilePath strConfigURL (World.start files)).2.trace
          = inProgressEvents env IDS_CONNECTING ++ inProgressEvents env IDS_DOWNLOADING
            ++ [(GENUP4WIN_INPROGRESS, strStatusMessage)]) := by
  obtain ⟨hRet, hTrace⟩ := CheckForUpdates_update_found k env strFilePath strConfigURL files
    pVersionInfo hLoad hRead hNe hPath hName
  rw [hRet, hTrace]
  have hEv : events (inProgressEffects env IDS_CONNECTING
          ++ [Effect.URLDownloadToFile strConfigURL (cfgFileName env)]
          ++ inProgressEffects env IDS_DOWNLOADING
          ++ [Effect.URLDownloadToFile
                (ReadConfigFile k env strConfigURL pVersionInfo.ProductName "" ""
                  (World.start files)).1.strDownloadURL (updFileName k env)]
          ++ (if env.updDownload.1 = S_OK then
                Effect.ShellExecuteEx (updFileName k env)
                  :: inProgressEffects env (if env.ShellExecuteEx then IDS_SUCCESS else IDS_FAILED)
              else [Effect.ParentCallback GENUP4WIN_ERROR (env.ErrorMessage env.updDownload.1)]))
      = inProgressEvents env IDS_CONNECTING ++ inProgressEvents env IDS_DOWNLOADING
          ++ inProgressEvents env (if env.ShellExecuteEx then IDS_SUCCESS else IDS_FAILED) := by
    simp [hDownload, events_append, events_inProgressEffects, events]
  refine ⟨by simp [hDownload], ?_, ?_, hEv, ?_⟩
  · simp [hDownload, launches_append, launches_inProgressEffects, launches]
  · simp only [hDownload, if_true, errorEvents_append, errorEvents_inProgressEffects]
    have hL : errorEvents (Effect.ShellExecuteEx (updFileName k env)
        :: inProgressEffects env (if env.ShellExecuteEx then IDS_SUCCESS else IDS_FAILED)) = [] :=
      errorEvents_inProgressEffects env _
    rw [hL]
    rfl
  · intro m hLaunch hm
    rw [hEv]
    simp [hLaunch, inProgressEvents, hm]

/-- C3 at a failed launch: the result is true and the last event is the
InProgress event with the failed message. -/
theorem C3_launch_outcome_witness :
    (CheckForUpdates sampleMacros envLaunchFails "C:\\app\\Foo.exe" "http://x/genUp4win.xml"
        (World.start noFiles)).1 = true
    ∧ errorEvents (CheckForUpdates sampleMacros envLaunchFails "C:\\app\\Foo.exe"
        "http://x/genUp4win.xml" (World.start noFiles)).2.trace = []
    ∧ events (CheckForUpdates sampleMacros envLaunchFails "C:\\app\\Foo.exe"
        "http://x/genUp4win.xml" (World.start noFiles)).2.trace
        = [(GENUP4WIN_INPROGRESS, "connecting"), (GENUP4WIN_INPROGRESS, "downloading"),
           (GENUP4WIN_INPROGRESS, "failed")] :=
  have h := C3_launch_outcome sampleMacros envLaunchFails "C:\\app\\Foo.exe"
    "http://x/genUp4win.xml" noFiles ⟨"Foo", "2.0.0.0"⟩ rfl (by decide) (by decide) (by decide)
    (by decide) rfl
  ⟨h.1, h.2.2.1, (h.2.2.2.2 "failed" rfl rfl).trans (by decide)⟩

/-! ## C4: the manifest download fails -/

/-- C4. When a run reaches the manifest download (version read, temp path and
temp file name obtained) and `URLDownloadToFile` of the config URL does not
return `S_OK`, `CheckForUpdates` returns false, the one Error event of the run
carries the message of that result and is the last event, the only download is
the manifest fetch (no payload download) and nothing is launched. -/
theorem C4_manifest_download_failure (k : Macros) (env : Env)
    (strFilePath strConfigURL : String) (files : Files) (pVersionInfo : CVersionInfo)
    (hLoad : env.Load strFilePath = some pVersionInfo)
    (hPath : 0 < env.cfgTempPath.1)
    (hName : 0 < (env.cfgTempFileName env.cfgTempPath.2).1)
    (hDownload : env.cfgDownload.1 ≠ S_OK) :
    (CheckForUpdates k env strFilePath strConfigURL (World.start files)).1 = false
    ∧ events (CheckForUpdates k env strFilePath strConfigURL (World.start files)).2.trace
        = inProgressEvents env IDS_CONNECTING
          ++ [(GENUP4WIN_ERROR, env.ErrorMessage env.cfgDownload.1)]
    ∧ errorEvents (CheckForUpdates k env strFilePath strConfigURL (World.start files)).2.trace
        = [(GENUP4WIN_ERROR, env.ErrorMessage env.cfgDownload.1)]
    ∧ downloads (CheckForUpdates k env strFilePath strConfigURL (World.start files)).2.trace
        = [(strConfigURL, cfgFileName env)]
    ∧ launches (CheckForUpdates k env strFilePath strConfigURL (World.start files)).2.trace = [] := by
  obtain ⟨hRes, hTrace⟩ := ReadConfigFile_download_failed k env strConfigURL
    pVersionInfo.ProductName "" "" (World.start files) hPath hName hDownload
  have hFalse : (ReadConfigFile k env strConfigURL pVersionInfo.ProductName "" ""
      (World.start files)).1.retVal = false := by rw [hRes]
  have hTrace0 : (ReadConfigFile k env strConfigURL pVersionInfo.ProductName "" ""
      (World.start files)).2.trace = inProgressEffects env IDS_CONNECTING
        ++ [Effect.URLDownloadToFile strConfigURL (cfgFileName env),
            Effect.ParentCallback GENUP4WIN_ERROR (env.ErrorMessage env.cfgDownload.1)] := by
    simpa [World.start] using hTrace
  rw [CheckForUpdates_of_read_false k env strFilePath strConfigURL (World.start files)
    pVersionInfo hLoad hFalse]
  dsimp only
  rw [hTrace0]
  refine ⟨rfl, ?_, ?_, ?_, ?_⟩
  · simp [events_append, events_inProgressEffects, events]
  · rw [errorEvents_append, errorEvents_inProgressEffects]
    simp [errorEvents, events]
  · simp [downloads_append, downloads_inProgressEffects, downloads]
  · simp [launches_append, launches_inProgressEffects, launches]

/-- C4 at a manifest download that fails with `INET_E_RESOURCE_NOT_FOUND`. -/
theorem C4_manifest_download_failure_witness :
    (CheckForUpdates sampleMacros envManifestFails "C:\\app\\Foo.exe" "http://x/genUp4win.xml"
        (World.start noFiles)).1 = false
    ∧ events (CheckForUpdates sampleMacros envManifestFails "C:\\app\\Foo.exe"
        "http://x/genUp4win.xml" (World.start noFiles)).2.trace
        = [(GENUP4WIN_INPROGRESS, "connecting"), (GENUP4WIN_ERROR, "resource not found")]
    ∧ downloads (CheckForUpdates sampleMacros envManifestFails "C:\\app\\Foo.exe"
        "http://x/genUp4win.xml" (World.start noFiles)).2.trace
        = [("http://x/genUp4win.xml", "C:\\Temp\\GUP1.xml")]
    ∧ launches (CheckForUpdates sampleMacros envManifestFails "C:\\app\\Foo.exe"
        "http://x/genUp4win.xml" (World.start noFiles)).2.trace = [] :=
  have h := C4_manifest_download_failure sampleMacros envManifestFails "C:\\app\\Foo.exe"
    "http://x/genUp4win.xml" noFiles ⟨"Foo", "2.0.0.0"⟩ rfl (by decide) (by decide) (by decide)
  ⟨h.1, h.2.1.trans (by decide), h.2.2.2.1.trans (by decide), h.2.2.2.2⟩

/-! ## C5: the version read fails -/

/-- C5, as stated, fails: `CVersionInfo::Load` returns false, the run returns
false, but the callback is never invoked, so no Error event is emitted. -/
theorem C5_counterexample :
    envNoVersion.Load "C:\\app\\Foo.exe" = none
    ∧ (CheckForUpdates sampleMacros envNoVersion "C:\\app\\Foo.exe" "http://x/genUp4win.xml"
        (World.start noFiles)).1 = false
    ∧ events (CheckForUpdates sampleMacros envNoVersion "C:\\app\\Foo.exe"
        "http://x/genUp4win.xml" (World.start noFiles)).2.trace = []
    ∧ errorEvents (CheckForUpdates sampleMacros envNoVersion "C:\\app\\Foo.exe"
        "http://x/genUp4win.xml" (World.start noFiles)).2.trace = [] := by
  decide

/-- C5, amended. When `CVersionInfo::Load` returns false on the supplied path,
`CheckForUpdates` returns false and does nothing else: the status callback is
not invoked (no event of any kind), nothing is downloaded and nothing is
launched. -/
theorem C5_version_read_failure (k : Macros) (env : Env)
    (strFilePath strConfigURL : String) (files : Files)
    (hLoad : env.Load strFilePath = none) :
    (CheckForUpdates k env strFilePath strConfigURL (World.start files)).1 = false
    ∧ (CheckForUpdates k env strFilePath strConfigURL (World.start files)).2.trace = []
    ∧ events (CheckForUpdates k env strFilePath strConfigURL (World.start files)).2.trace = []
    ∧ downloads (CheckForUpdates k env strFilePath strConfigURL (World.start files)).2.trace = []
    ∧ launches (CheckForUpdates k env strFilePath strConfigURL (World.start files)).2.trace = [] := by
  have hRun : CheckForUpdates k env strFilePath strConfigURL (World.start files)
      = (false, World.start files) := by
    unfold CheckForUpdates
    simp [hLoad]
  rw [hRun]
  exact ⟨rfl, rfl, rfl, rfl, rfl⟩

/-- C5, amended, at the sample environment without version resource. -/
theorem C5_version_read_failure_witness :
    (CheckForUpdates sampleMacros envNoVersion "C:\\app\\Foo.exe" "http://x/genUp4win.xml"
        (World.start noFiles)).1 = false
    ∧ (CheckForUpdates sampleMacros envNoVersion "C:\\app\\Foo.exe" "http://x/genUp4win.xml"
        (World.start noFiles)).2.trace = [] :=
  have h := C5_version_read_failure sampleMacros envNoVersion "C:\\app\\Foo.exe"
    "http://x/genUp4win.xml" noFiles rfl
  ⟨h.1, h.2.1⟩

/-! ## C6: the manifest has no entry for the product -/

/-- C6. When the downloaded manifest document has no section for the requested
product name, `ReadConfigFile` returns false with the output parameters
untouched and emits exactly one Error event; and a `CheckForUpdates` run for a
binary with that product name returns false with that Error event, downloads
nothing but the manifest and launches nothing. -/
theorem C6_missing_manifest_entry (k : Macros) (env : Env)
    (strConfigURL strProductName lv du : String) (files : Files) (d : Doc)
    (hPath : 0 < env.cfgTempPath.1)
    (hName : 0 < (env.cfgTempFileName env.cfgTempPath.2).1)
    (hDownload : env.cfgDownload = (S_OK, FileContent.xml d))
    (hMissing : d.lookup strProductName = none) :
    (ReadConfigFile k env strConfigURL strProductName lv du (World.start files)).1
        = ⟨false, lv, du⟩
    ∧ errorEvents (ReadConfigFile k env strConfigURL strProductName lv du
        (World.start files)).2.trace
        = [(GENUP4WIN_ERROR, if FAILED env.CoInitialize then env.ErrorMessage env.CoInitialize
              else env.GetErrorMessage StoreError.EntryNotFound)]
    ∧ (∀ (strFilePath : String) (pVersionInfo : CVersionInfo),
        env.Load strFilePath = some pVersionInfo →
        pVersionInfo.ProductName = strProductName →
        (CheckForUpdates k env strFilePath strConfigURL (World.start files)).1 = false
        ∧ errorEvents (CheckForUpdates k env strFilePath strConfigURL (World.start files)).2.trace
            = [(GENUP4WIN_ERROR, if FAILED env.CoInitialize then env.ErrorMessage env.CoInitialize
                  else env.GetErrorMessage StoreError.EntryNotFound)]
        ∧ downloads (CheckForUpdates k env strFilePath strConfigURL (World.start files)).2.trace
            = [(strConfigURL, cfgFileName env)]
        ∧ launches (CheckForUpdates k env strFilePath strConfigURL (World.start files)).2.trace
            = []) := by
  have hErr : ∀ (a b : String) (msg : String),
      errorEvents ((World.start files).trace ++ inProgressEffects env IDS_CONNECTING
        ++ [Effect.URLDownloadToFile a b, Effect.ParentCallback GENUP4WIN_ERROR msg])
        = [(GENUP4WIN_ERROR, msg)] := by
    intro a b msg
    rw [show (World.start files).trace = [] from rfl, List.nil_append, errorEvents_append,
      errorEvents_inProgressEffects]
    simp [errorEvents, events]
  obtain ⟨hRes, hTrace⟩ := ReadConfigFile_missing_entry k env strConfigURL strProductName lv du
    (World.start files) d hPath hName hDownload hMissing
  refine ⟨hRes, ?_, ?_⟩
  · rw [hTrace]
    exact hErr _ _ _
  · intro strFilePath pVersionInfo hLoad hProduct
    obtain ⟨hRes0, hTrace0⟩ := ReadConfigFile_missing_entry k env strConfigURL
      pVersionInfo.ProductName "" "" (World.start files) d hPath hName hDownload
      (by rw [hProduct]; exact hMissing)
    have hFalse : (ReadConfigFile k env strConfigURL pVersionInfo.ProductName "" ""
        (World.start files)).1.retVal = false := by rw [hRes0]
    rw [CheckForUpdates_of_read_false k env strFilePath strConfigURL (World.start files)
      pVersionInfo hLoad hFalse]
    dsimp only
    rw [hTrace0]
    refine ⟨rfl, hErr _ _ _, ?_, ?_⟩
    · simp [World.start, downloads_append, downloads_inProgressEffects, downloads]
    · simp [World.start, launches_append, launches_inProgressEffects, launches]

/-- C6 at the sample manifest, which has an entry for `Foo` only, read for
product `Bar`. -/
theorem C6_missing_manifest_entry_witness :
    (ReadConfigFile sampleMacros envOtherProduct "http://x/genUp4win.xml" "Bar" "" ""
        (World.start noFiles)).1 = ⟨false, "", ""⟩
    ∧ errorEvents (ReadConfigFile sampleMacros envOtherProduct "http://x/genUp4win.xml" "Bar" "" ""
        (World.start noFiles)).2.trace = [(GENUP4WIN_ERROR, "entry not found")]
    ∧ (CheckForUpdates sampleMacros envOtherProduct "C:\\app\\Bar.exe" "http://x/genUp4win.xml"
        (World.start noFiles)).1 = false
    ∧ downloads (CheckForUpdates sampleMacros envOtherProduct "C:\\app\\Bar.exe"
        "http://x/genUp4win.xml" (World.start noFiles)).2.trace
        = [("http://x/genUp4win.xml", "C:\\Temp\\GUP1.xml")] :=
  have h := C6_missing_manifest_entry sampleMacros envOtherProduct "http://x/genUp4win.xml" "Bar"
    "" "" noFiles [("Foo", [("Version", "2.0.0.1"), ("Download", "http://x/y.msi")])]
    (by decide) (by decide) rfl (by decide)
  have h3 := h.2.2 "C:\\app\\Bar.exe" ⟨"Bar", "2.0.0.0"⟩ rfl rfl
  ⟨h.1, h.2.1.trans (by decide), h3.1, h3.2.2.1.trans (by decide)⟩

/-! ## C7: write then read -/

/-- C7. Round trip, for distinct entry identifiers: if `WriteConfigFile`
succeeds for a binary with a given product name and version and a given URL,
then a `ReadConfigFile` for the same product name that reaches the parse of the
document it wrote (temp file obtained, download `S_OK` delivering the written
file, `CoInitialize` not failed) returns true with exactly that version and
exactly that URL. -/
theorem C7_write_read_round_trip (k : Macros) (envW envR : Env)
    (strFilePath strDownloadURL strConfigURL lv du : String) (filesW filesR : Files)
    (pVersionInfo : CVersionInfo)
    (hIds : k.VERSION_ENTRY_ID ≠ k.DOWNLOAD_ENTRY_ID)
    (hLoad : envW.Load strFilePath = some pVersionInfo)
    (hWrite : (WriteConfigFile k envW strFilePath strDownloadURL (World.start filesW)).1 = true)
    (hPath : 0 < envR.cfgTempPath.1)
    (hName : 0 < (envR.cfgTempFileName envR.cfgTempPath.2).1)
    (hDownload : envR.cfgDownload.1 = S_OK)
    (hDoc : (WriteConfigFile k envW strFilePath strDownloadURL (World.start filesW)).2.files
        (GetAppSettingsFilePath envW strFilePath pVersionInfo.ProductName)
        = some envR.cfgDownload.2)
    (hCo : FAILED envR.CoInitialize = false) :
    (ReadConfigFile k envR strConfigURL pVersionInfo.ProductName lv du (World.start filesR)).1
      = ⟨true, pVersionInfo.ProductVersionAsString, strDownloadURL⟩ := by
  obtain ⟨hV, hU⟩ := WriteConfigFile_of_true k envW strFilePath strDownloadURL
    (World.start filesW) pVersionInfo hIds hLoad hWrite
  rw [hDoc] at hV hU
  have hFile : ((World.start filesR).files.set (cfgFileName envR) envR.cfgDownload.2)
      (cfgFileName envR) = some envR.cfgDownload.2 := by
    simp [Files.set]
  apply ReadConfigFile_of_success k envR strConfigURL pVersionInfo.ProductName lv du _ _
    (World.start filesR) hPath hName hDownload hCo
  · apply GetString_of_entryOf
    rw [hFile]
    exact hV
  · apply GetString_of_entryOf
    rw [hFile]
    exact hU

/-- C7 at product `Foo`, version `1.0.0.1`, URL `http://x/y.msi`. -/
theorem C7_write_read_round_trip_witness :
    (WriteConfigFile sampleMacros (sampleEnv "1.0.0.1" "1.0.0.0") "C:\\app\\Foo.exe"
        "http://x/y.msi" (World.start noFiles)).1 = true
    ∧ (WriteConfigFile sampleMacros (sampleEnv "1.0.0.1" "1.0.0.0") "C:\\app\\Foo.exe"
        "http://x/y.msi" (World.start noFiles)).2.files "C:\\Users\\u\\Foo.xml"
        = some (sampleManifest "1.0.0.1")
    ∧ (ReadConfigFile sampleMacros (sampleEnv "9.9.9.9" "1.0.0.1") "http://x/genUp4win.xml" "Foo"
        "" "" (World.start noFiles)).1 = ⟨true, "1.0.0.1", "http://x/y.msi"⟩ :=
  ⟨by decide, by decide,
    C7_write_read_round_trip sampleMacros (sampleEnv "1.0.0.1" "1.0.0.0")
      (sampleEnv "9.9.9.9" "1.0.0.1") "C:\\app\\Foo.exe" "http://x/y.msi"
      "http://x/genUp4win.xml" "" "" noFiles noFiles ⟨"Foo", "1.0.0.1"⟩ (by decide) rfl
      (by decide) (by decide) (by decide) rfl (by decide) rfl⟩

/-! ## C8: the payload download fails -/

/-- C8. When a run finds an update, obtains the payload temp file and the
payload download does not return `S_OK`, `CheckForUpdates` returns false,
nothing is launched, and the one Error event of the run, carrying the message
of the download result, is the last event. -/
theorem C8_payload_download_failure (k : Macros) (env : Env)
    (strFilePath strConfigURL : String) (files : Files) (pVersionInfo : CVersionInfo)
    (hLoad : env.Load strFilePath = some pVersionInfo)
    (hRead : (ReadConfigFile k env strConfigURL pVersionInfo.ProductName "" ""
        (World.start files)).1.retVal = true)
    (hNe : (ReadConfigFile k env strConfigURL pVersionInfo.ProductName "" ""
        (World.start files)).1.strLatestVersion ≠ pVersionInfo.ProductVersionAsString)
    (hPath : 0 < env.updTempPath.1)
    (hName : 0 < (env.updTempFileName env.updTempPath.2).1)
    (hDownload : env.updDownload.1 ≠ S_OK) :
    (CheckForUpdates k env strFilePath strConfigURL (World.start files)).1 = false
    ∧ launches (CheckForUpdates k env strFilePath strConfigURL (World.start files)).2.trace = []
    ∧ errorEvents (CheckForUpdates k env strFilePath strConfigURL (World.start files)).2.trace
        = [(GENUP4WIN_ERROR, env.ErrorMessage env.updDownload.1)]
    ∧ events (CheckForUpdates k env strFilePath strConfigURL (World.start files)).2.trace
        = inProgressEvents env IDS_CONNECTING ++ inProgressEvents env IDS_DOWNLOADING
          ++ [(GENUP4WIN_ERROR, env.ErrorMessage env.updDownload.1)] := by
  obtain ⟨hRet, hTrace⟩ := CheckForUpdates_update_found k env strFilePath strConfigURL files
    pVersionInfo hLoad hRead hNe hPath hName
  rw [hRet, hTrace]
  refine ⟨by simp [hDownload], ?_, ?_, ?_⟩
  · simp [hDownload, launches_append, launches_inProgressEffects, launches]
  · simp only [hDownload, if_false, errorEvents_append, errorEvents_inProgressEffects]
    simp [errorEvents, events]
  · simp [hDownload, events_append, events_inProgressEffects, events]

/-- C8 at a payload download that fails with `INET_E_RESOURCE_NOT_FOUND`. -/
theorem C8_payload_download_failure_witness :
    (CheckForUpdates sampleMacros envPayloadFails "C:\\app\\Foo.exe" "http://x/genUp4win.xml"
        (World.start noFiles)).1 = false
    ∧ launches (CheckForUpdates sampleMacros envPayloadFails "C:\\app\\Foo.exe"
        "http://x/genUp4win.xml" (World.start noFiles)).2.trace = []
    ∧ events (CheckForUpdates sampleMacros envPayloadFails "C:\\app\\Foo.exe"
        "http://x/genUp4win.xml" (World.start noFiles)).2.trace
        = [(GENUP4WIN_INPROGRESS, "connecting"), (GENUP4WIN_INPROGRESS, "downloading"),
           (GENUP4WIN_ERROR, "resource not found")] :=
  have h := C8_payload_download_failure sampleMacros envPayloadFails "C:\\app\\Foo.exe"
    "http://x/genUp4win.xml" noFiles ⟨"Foo", "2.0.0.0"⟩ rfl (by decide) (by decide) (by decide)
    (by decide) (by decide)
  ⟨h.1, h.2.1, h.2.2.2.trans (by decide)⟩

/-! ## C9: the end-to-end success trace -/

/-- C9. Local version `2.0.0.0`, manifest version `2.0.0.1`, every external
step succeeding (version read, `ReadConfigFile`, payload temp file, payload
download, launch, the three status strings): `CheckForUpdates` returns true and
the status events are, in this order, one InProgress event with the connecting
message, one InProgress event with the downloading message and the InProgress
event with the success message of the launch; there is no Error event; when the
three messages are distinct, the connecting and the downloading event each
occur exactly once. -/
theorem C9_end_to_end_success (k : Macros) (env : Env)
    (strFilePath strConfigURL strProductName : String) (files : Files)
    (strConnecting strDownloading strSuccess : String)
    (hLoad : env.Load strFilePath = some ⟨strProductName, "2.0.0.0"⟩)
    (hRead : (ReadConfigFile k env strConfigURL strProductName "" ""
        (World.start files)).1.retVal = true)
    (hLatest : (ReadConfigFile k env strConfigURL strProductName "" ""
        (World.start files)).1.strLatestVersion = "2.0.0.1")
    (hPath : 0 < env.updTempPath.1)
    (hName : 0 < (env.updTempFileName env.updTempPath.2).1)
    (hDownload : env.updDownload.1 = S_OK)
    (hLaunch : env.ShellExecuteEx = true)
    (hConnecting : env.LoadString IDS_CONNECTING = some strConnecting)
    (hDownloading : env.LoadString IDS_DOWNLOADING = some strDownloading)
    (hSuccess : env.LoadString IDS_SUCCESS = some strSuccess) :
    (CheckForUpdates k env strFilePath strConfigURL (World.start files)).1 = true
    ∧ events (CheckForUpdates k env strFilePath strConfigURL (World.start files)).2.trace
        = [(GENUP4WIN_INPROGRESS, strConnecting), (GENUP4WIN_INPROGRESS, strDownloading),
           (GENUP4WIN_INPROGRESS, strSuccess)]
    ∧ errorEvents (CheckForUpdates k env strFilePath strConfigURL (World.start files)).2.trace = []
    ∧ (strConnecting ≠ strDownloading → strConnecting ≠ strSuccess →
        strDownloading ≠ strSuccess →
        (events (CheckForUpdates k env strFilePath strConfigURL (World.start files)).2.trace).count
            (GENUP4WIN_INPROGRESS, strConnecting) = 1
        ∧ (events (CheckForUpdates k env strFilePath strConfigURL
            (World.start files)).2.trace).count (GENUP4WIN_INPROGRESS, strDownloading) = 1) := by
  have hNe : (ReadConfigFile k env strConfigURL
      (CVersionInfo.mk strProductName "2.0.0.0").ProductName "" ""
      (World.start files)).1.strLatestVersion
      ≠ (CVersionInfo.mk strProductName "2.0.0.0").ProductVersionAsString := by
    show (ReadConfigFile k env strConfigURL strProductName "" ""
      (World.start files)).1.strLatestVersion ≠ "2.0.0.0"
    rw [hLatest]
    decide
  obtain ⟨hRet, hTrace⟩ := CheckForUpdates_update_found k env strFilePath strConfigURL files
    ⟨strProductName, "2.0.0.0"⟩ hLoad hRead hNe hPath hName
  have hEv : events (CheckForUpdates k env strFilePath strConfigURL (World.start files)).2.trace
      = [(GENUP4WIN_INPROGRESS, strConnecting), (GENUP4WIN_INPROGRESS, strDownloading),
         (GENUP4WIN_INPROGRESS, strSuccess)] := by
    rw [hTrace]
    simp [hDownload, hLaunch, events_append, events_inProgressEffects, events, inProgressEvents,
      hConnecting, hDownloading, hSuccess]
  refine ⟨by rw [hRet]; simp [hDownload], hEv, ?_, ?_⟩
  · unfold errorEvents
    rw [hEv]
    rfl
  · intro h1 h2 h3
    rw [hEv]
    have h1s : ¬ strDownloading = strConnecting := fun e => h1 e.symm
    have h2s : ¬ strSuccess = strConnecting := fun e => h2 e.symm
    have h3s : ¬ strSuccess = strDownloading := fun e => h3 e.symm
    simp [List.count_cons, h1, h2, h3, h1s, h2s, h3s]

/-- C9 at the sample environment. -/
theorem C9_end_to_end_success_witness :
    (CheckForUpdates sampleMacros (sampleEnv "2.0.0.0" "2.0.0.1") "C:\\app\\Foo.exe"
        "http://x/genUp4win.xml" (World.start noFiles)).1 = true
    ∧ events (CheckForUpdates sampleMacros (sampleEnv "2.0.0.0" "2.0.0.1") "C:\\app\\Foo.exe"
        "http://x/genUp4win.xml" (World.start noFiles)).2.trace
        = [(GENUP4WIN_INPROGRESS, "connecting"), (GENUP4WIN_INPROGRESS, "downloading"),
           (GENUP4WIN_INPROGRESS, "success")]
    ∧ errorEvents (CheckForUpdates sampleMacros (sampleEnv "2.0.0.0" "2.0.0.1") "C:\\app\\Foo.exe"
        "http://x/genUp4win.xml" (World.start noFiles)).2.trace = [] :=
  have h := C9_end_to_end_success sampleMacros (sampleEnv "2.0.0.0" "2.0.0.1") "C:\\app\\Foo.exe"
    "http://x/genUp4win.xml" "Foo" noFiles "connecting" "downloading" "success" rfl (by decide)
    (by decide) (by decide) (by decide) rfl rfl rfl rfl rfl
  ⟨h.1, h.2.1, h.2.2.1⟩

/-! ## C10: the settings file path -/

/-- C10 fails on the code for a product name with a dot. For the fallback path
`C:\app\demo.exe` and the product name `My.App`, the profile branch returns
`C:\Users\u\My.App.xml`, but the fallback branch returns `C:\app\My.xml`:
`replace_extension` takes `.App` for the extension of the file name and
replaces it, so the file name is not the product name followed by `.xml` and
is not the same in both branches. For a product name without a dot the
fallback branch gives the sibling `C:\app\MyApp.xml`. -/
theorem C10_dotted_product_name :
    GetAppSettingsFilePath (sampleEnv "1.0.0.0" "1.0.0.0") "C:\\app\\demo.exe" "My.App"
        = "C:\\Users\\u\\My.App.xml"
    ∧ GetAppSettingsFilePath envNoProfile "C:\\app\\demo.exe" "My.App" = "C:\\app\\My.xml"
    ∧ GetAppSettingsFilePath envNoProfile "C:\\app\\demo.exe" "My.App" ≠ "C:\\app\\My.App.xml"
    ∧ GetAppSettingsFilePath envNoProfile "C:\\app\\demo.exe" "MyApp" = "C:\\app\\MyApp.xml" := by
  decide

/-! ## C11: the file the manifest is downloaded to -/

/-- C11 fails on the code for a temp directory whose name contains `.tmp`.
For the temp directory `C:\my.tmp\` and the allocated temp file
`C:\my.tmp\GUP1.tmp`, `ReadConfigFile` downloads the manifest to
`C:\my.xml\GUP1.xml`: `Replace` rewrites every occurrence of `.tmp`, so the
directory part is changed too and the target is not `C:\my.tmp\GUP1.xml`. For
the temp directory `C:\Temp\` only the extension changes. -/
theorem C11_temp_directory_rewritten :
    envTmpDirectory.cfgTempFileName envTmpDirectory.cfgTempPath.2 = (1, "C:\\my.tmp\\GUP1.tmp")
    ∧ cfgFileName envTmpDirectory = "C:\\my.xml\\GUP1.xml"
    ∧ cfgFileName envTmpDirectory ≠ "C:\\my.tmp\\GUP1.xml"
    ∧ downloads (ReadConfigFile sampleMacros envTmpDirectory "http://x/genUp4win.xml" "Foo" "" ""
        (World.start noFiles)).2.trace = [("http://x/genUp4win.xml", "C:\\my.xml\\GUP1.xml")]
    ∧ (sampleEnv "2.0.0.0" "2.0.0.1").cfgTempFileName (sampleEnv "2.0.0.0" "2.0.0.1").cfgTempPath.2
        = (1, "C:\\Temp\\GUP1.tmp")
    ∧ cfgFileName (sampleEnv "2.0.0.0" "2.0.0.1") = "C:\\Temp\\GUP1.xml" := by
  decide

/-! ## C12: when the result is true -/

/-- C12. `CheckForUpdates` returns true if and only if the version read
succeeds, `ReadConfigFile` returns true, the manifest version string differs
from the local version string, the payload temp path and the payload temp file
name are both obtained, and the payload download returns `S_OK`; in every other
case it returns false. -/
theorem C12_result_characterisation (k : Macros) (env : Env)
    (strFilePath strConfigURL : String) (w : World) :
    ((CheckForUpdates k env strFilePath strConfigURL w).1 = true ↔
      ∃ pVersionInfo : CVersionInfo,
        env.Load strFilePath = some pVersionInfo
        ∧ (ReadConfigFile k env strConfigURL pVersionInfo.ProductName "" "" w).1.retVal = true
        ∧ (ReadConfigFile k env strConfigURL pVersionInfo.ProductName "" "" w).1.strLatestVersion
            ≠ pVersionInfo.ProductVersionAsString
        ∧ 0 < env.updTempPath.1
        ∧ 0 < (env.updTempFileName env.updTempPath.2).1
        ∧ env.updDownload.1 = S_OK)
    ∧ ((CheckForUpdates k env strFilePath strConfigURL w).1 = false ↔
      ¬ ∃ pVersionInfo : CVersionInfo,
        env.Load strFilePath = some pVersionInfo
        ∧ (ReadConfigFile k env strConfigURL pVersionInfo.ProductName "" "" w).1.retVal = true
        ∧ (ReadConfigFile k env strConfigURL pVersionInfo.ProductName "" "" w).1.strLatestVersion
            ≠ pVersionInfo.ProductVersionAsString
        ∧ 0 < env.updTempPath.1
        ∧ 0 < (env.updTempFileName env.updTempPath.2).1
        ∧ env.updDownload.1 = S_OK) := by
  have hIff : ((CheckForUpdates k env strFilePath strConfigURL w).1 = true ↔
      ∃ pVersionInfo : CVersionInfo,
        env.Load strFilePath = some pVersionInfo
        ∧ (ReadConfigFile k env strConfigURL pVersionInfo.ProductName "" "" w).1.retVal = true
        ∧ (ReadConfigFile k env strConfigURL pVersionInfo.ProductName "" "" w).1.strLatestVersion
            ≠ pVersionInfo.ProductVersionAsString
        ∧ 0 < env.updTempPath.1
        ∧ 0 < (env.updTempFileName env.updTempPath.2).1
        ∧ env.updDownload.1 = S_OK) := by
    unfold CheckForUpdates
    cases hL : env.Load strFilePath with
    | none => simp
    | some pVersionInfo =>
      simp only [Option.some.injEq, exists_eq_left']
      by_cases hR : (ReadConfigFile k env strConfigURL pVersionInfo.ProductName "" "" w).1.retVal
          = true
      · by_cases hV : (ReadConfigFile k env strConfigURL pVersionInfo.ProductName "" ""
            w).1.strLatestVersion = pVersionInfo.ProductVersionAsString
        · simp [hR, hV]
        · by_cases hP : 0 < env.updTempPath.1
          · by_cases hN : 0 < (env.updTempFileName env.updTempPath.2).1
            · by_cases hD : env.updDownload.1 = S_OK
              · simp [hR, hV, hP, hN, hD, URLDownloadToFile]
              · simp [hR, hV, hP, hN, hD, URLDownloadToFile]
            · simp [hR, hV, hP, hN]
          · simp [hR, hV, hP]
      · simp [hR]
  refine ⟨hIff, ?_⟩
  rw [← hIff]
  cases (CheckForUpdates k env strFilePath strConfigURL w).1 <;> simp

/-! ## C13: at most one Error event, and it ends the run -/

/-- The three shapes of the trace of `ReadConfigFile`: nothing (a temp call
failed), the connecting report and the download (success), or these followed
by one Error callback (failure after the download was called). -/
theorem ReadConfigFile_trace_shape (k : Macros) (env : Env)
    (strConfigURL strProductName lv du : String) (w : World) :
    ((ReadConfigFile k env strConfigURL strProductName lv du w).1.retVal = false
      ∧ (ReadConfigFile k env strConfigURL strProductName lv du w).2.trace = w.trace)
    ∨ ((ReadConfigFile k env strConfigURL strProductName lv du w).1.retVal = true
      ∧ (ReadConfigFile k env strConfigURL strProductName lv du w).2.trace
          = w.trace ++ inProgressEffects env IDS_CONNECTING
            ++ [Effect.URLDownloadToFile strConfigURL (cfgFileName env)])
    ∨ ((ReadConfigFile k env strConfigURL strProductName lv du w).1.retVal = false
      ∧ ∃ strMessage, (ReadConfigFile k env strConfigURL strProductName lv du w).2.trace
          = w.trace ++ inProgressEffects env IDS_CONNECTING
            ++ [Effect.URLDownloadToFile strConfigURL (cfgFileName env)]
            ++ [Effect.ParentCallback GENUP4WIN_ERROR strMessage]) := by
  cases hR : (ReadConfigFile k env strConfigURL strProductName lv du w).1.retVal with
  | true =>
    exact Or.inr (Or.inl ⟨rfl, (ReadConfigFile_of_true k env strConfigURL strProductName lv du w
      hR).2.2.2.2.2.2⟩)
  | false =>
    by_cases hP : 0 < env.cfgTempPath.1
    · by_cases hN : 0 < (env.cfgTempFileName env.cfgTempPath.2).1
      · refine Or.inr (Or.inr ⟨rfl, ?_⟩)
        by_cases hD : env.cfgDownload.1 = S_OK
        · by_cases hCo : FAILED env.CoInitialize = true
          · refine ⟨env.ErrorMessage env.CoInitialize, ?_⟩
            unfold ReadConfigFile
            simp [hP, hN, hD, hCo, URLDownloadToFile, ParentCallback, reportInProgress_trace,
              cfgFileName]
          · cases hV : CXMLAppSettings.GetString (w.files.set (cfgFileName env) env.cfgDownload.2)
                (cfgFileName env) strProductName k.VERSION_ENTRY_ID with
            | error e =>
              refine ⟨env.GetErrorMessage e, ?_⟩
              simp only [cfgFileName] at hV
              unfold ReadConfigFile
              simp [hP, hN, hD, hCo, hV, URLDownloadToFile, ParentCallback,
                reportInProgress_trace, reportInProgress_files, cfgFileName]
            | ok version =>
              cases hU : CXMLAppSettings.GetString
                  (w.files.set (cfgFileName env) env.cfgDownload.2)
                  (cfgFileName env) strProductName k.DOWNLOAD_ENTRY_ID with
              | error e =>
                refine ⟨env.GetErrorMessage e, ?_⟩
                simp only [cfgFileName] at hV hU
                unfold ReadConfigFile
                simp [hP, hN, hD, hCo, hV, hU, URLDownloadToFile, ParentCallback,
                  reportInProgress_trace, reportInProgress_files, cfgFileName]
              | ok url =>
                have hTrue := ReadConfigFile_of_success k env strConfigURL strProductName lv du
                  version url w hP hN hD (by simpa using hCo) hV hU
                rw [hTrue] at hR
                cases hR
        · refine ⟨env.ErrorMessage env.cfgDownload.1, ?_⟩
          rw [(ReadConfigFile_download_failed k env strConfigURL strProductName lv du w hP hN
            hD).2]
          simp
      · left
        unfold ReadConfigFile
        simp [hP, hN]
    · left
      unfold ReadConfigFile
      simp [hP]

/-- The shape of the trace of every run of `CheckForUpdates`: a part without
Error event and without launch, followed either by effects without Error
event, or by exactly one Error callback, in which case the result is false. -/
theorem CheckForUpdates_trace_shape (k : Macros) (env : Env)
    (strFilePath strConfigURL : String) (files : Files) :
    ∃ before after : List Effect,
      (CheckForUpdates k env strFilePath strConfigURL (World.start files)).2.trace
        = before ++ after
      ∧ errorEvents before = [] ∧ launches before = []
      ∧ (errorEvents after = []
        ∨ ((CheckForUpdates k env strFilePath strConfigURL (World.start files)).1 = false
            ∧ ∃ strMessage, after = [Effect.ParentCallback GENUP4WIN_ERROR strMessage])) := by
  have hPre : errorEvents (inProgressEffects env IDS_CONNECTING
        ++ [Effect.URLDownloadToFile strConfigURL (cfgFileName env)]) = []
      ∧ launches (inProgressEffects env IDS_CONNECTING
        ++ [Effect.URLDownloadToFile strConfigURL (cfgFileName env)]) = [] := by
    constructor
    · rw [errorEvents_append, errorEvents_inProgressEffects]; rfl
    · rw [launches_append, launches_inProgressEffects]; rfl
  cases hL : env.Load strFilePath with
  | none =>
    refine ⟨[], [], ?_, rfl, rfl, Or.inl rfl⟩
    unfold CheckForUpdates
    simp [hL, World.start]
  | some pVersionInfo =>
    rcases ReadConfigFile_trace_shape k env strConfigURL pVersionInfo.ProductName "" ""
      (World.start files) with ⟨hR, hT⟩ | ⟨hR, hT⟩ | ⟨hR, strMessage, hT⟩
    · refine ⟨[], [], ?_, rfl, rfl, Or.inl rfl⟩
      rw [CheckForUpdates_of_read_false k env strFilePath strConfigURL (World.start files)
        pVersionInfo hL hR]
      simpa [World.start] using hT
    · by_cases hV : (ReadConfigFile k env strConfigURL pVersionInfo.ProductName "" ""
          (World.start files)).1.strLatestVersion = pVersionInfo.ProductVersionAsString
      · refine ⟨_, [], ?_, hPre.1, hPre.2, Or.inl rfl⟩
        have hRun : CheckForUpdates k env strFilePath strConfigURL (World.start files)
            = (false, (ReadConfigFile k env strConfigURL pVersionInfo.ProductName "" ""
                (World.start files)).2) := by
          unfold CheckForUpdates
          simp [hL, hR, hV]
        rw [hRun]
        simpa [World.start] using hT
      · by_cases hP : 0 < env.updTempPath.1 ∧ 0 < (env.updTempFileName env.updTempPath.2).1
        · obtain ⟨hRet, hTrace⟩ := CheckForUpdates_update_found k env strFilePath strConfigURL
            files pVersionInfo hL hR hV hP.1 hP.2
          have hMid : errorEvents (inProgressEffects env IDS_CONNECTING
                ++ [Effect.URLDownloadToFile strConfigURL (cfgFileName env)]
                ++ inProgressEffects env IDS_DOWNLOADING
                ++ [Effect.URLDownloadToFile
                      (ReadConfigFile k env strConfigURL pVersionInfo.ProductName "" ""
                        (World.start files)).1.strDownloadURL (updFileName k env)]) = []
              ∧ launches (inProgressEffects env IDS_CONNECTING
                ++ [Effect.URLDownloadToFile strConfigURL (cfgFileName env)]
                ++ inProgressEffects env IDS_DOWNLOADING
                ++ [Effect.URLDownloadToFile
                      (ReadConfigFile k env strConfigURL pVersionInfo.ProductName "" ""
                        (World.start files)).1.strDownloadURL (updFileName k env)]) = [] := by
            constructor
            · rw [errorEvents_append, errorEvents_append, hPre.1, errorEvents_inProgressEffects]
              rfl
            · rw [launches_append, launches_append, hPre.2, launches_inProgressEffects]
              rfl
          refine ⟨_, _, hTrace, hMid.1, hMid.2, ?_⟩
          by_cases hD : env.updDownload.1 = S_OK
          · left
            rw [if_pos hD]
            exact errorEvents_inProgressEffects env _
          · right
            rw [if_neg hD]
            exact ⟨by rw [hRet]; simp [hD], _, rfl⟩
        · refine ⟨_, [], ?_, hPre.1, hPre.2, Or.inl rfl⟩
          have hRun : CheckForUpdates k env strFilePath strConfigURL (World.start files)
              = (false, (ReadConfigFile k env strConfigURL pVersionInfo.ProductName "" ""
                  (World.start files)).2) := by
            unfold CheckForUpdates
            by_cases hP1 : 0 < env.updTempPath.1
            · have hP2 : ¬ 0 < (env.updTempFileName env.updTempPath.2).1 := fun h => hP ⟨hP1, h⟩
              simp [hL, hR, hV, hP1, hP2]
            · simp [hL, hR, hV, hP1]
          rw [hRun]
          simpa [World.start] using hT
    · refine ⟨_, _, ?_, hPre.1, hPre.2, Or.inr ⟨?_, strMessage, rfl⟩⟩
      · rw [CheckForUpdates_of_read_false k env strFilePath strConfigURL (World.start files)
          pVersionInfo hL hR]
        simpa [World.start] using hT
      · rw [CheckForUpdates_of_read_false k env strFilePath strConfigURL (World.start files)
          pVersionInfo hL hR]

/-- C13. In every run of `CheckForUpdates`, whatever the external steps
return, at most one Error event is emitted; and when an Error event is
emitted, its callback is the last effect of the run (so it is the last event),
nothing is launched and the result is false. -/
theorem C13_at_most_one_error (k : Macros) (env : Env)
    (strFilePath strConfigURL : String) (files : Files) :
    (errorEvents (CheckForUpdates k env strFilePath strConfigURL
        (World.start files)).2.trace).length ≤ 1
    ∧ (∀ strMessage,
        (GENUP4WIN_ERROR, strMessage)
          ∈ events (CheckForUpdates k env strFilePath strConfigURL (World.start files)).2.trace →
        (CheckForUpdates k env strFilePath strConfigURL (World.start files)).2.trace.getLast?
            = some (Effect.ParentCallback GENUP4WIN_ERROR strMessage)
        ∧ (events (CheckForUpdates k env strFilePath strConfigURL
            (World.start files)).2.trace).getLast? = some (GENUP4WIN_ERROR, strMessage)
        ∧ launches (CheckForUpdates k env strFilePath strConfigURL (World.start files)).2.trace
            = []
        ∧ (CheckForUpdates k env strFilePath strConfigURL (World.start files)).1 = false) := by
  obtain ⟨before, after, hT, hE, hL, hAfter⟩ :=
    CheckForUpdates_trace_shape k env strFilePath strConfigURL files
  have hMem : ∀ (t : List Effect) (strMessage : String),
      (GENUP4WIN_ERROR, strMessage) ∈ events t → (GENUP4WIN_ERROR, strMessage) ∈ errorEvents t := by
    intro t strMessage h
    unfold errorEvents
    exact List.mem_filter.mpr ⟨h, by simp⟩
  rw [hT]
  rcases hAfter with hNone | ⟨hRet, strMessage0, hOne⟩
  · have hAll : errorEvents (before ++ after) = [] := by
      rw [errorEvents_append, hE, hNone]
      rfl
    refine ⟨by rw [hAll]; exact Nat.zero_le 1, ?_⟩
    intro strMessage h
    have h2 := hMem _ _ h
    rw [hAll] at h2
    cases h2
  · subst hOne
    have hAll : errorEvents (before ++ [Effect.ParentCallback GENUP4WIN_ERROR strMessage0])
        = [(GENUP4WIN_ERROR, strMessage0)] := by
      rw [errorEvents_append, hE]
      simp [errorEvents, events]
    refine ⟨by rw [hAll]; exact Nat.le_refl 1, ?_⟩
    intro strMessage h
    have h2 := hMem _ _ h
    rw [hAll] at h2
    have hEq : strMessage = strMessage0 := by simpa using h2
    subst hEq
    refine ⟨by simp, ?_, ?_, hRet⟩
    · rw [events_append]
      simp [events]
    · rw [launches_append, hL]
      rfl

/-- C13 at the run whose payload download fails: the Error event is emitted,
it is the last event, nothing is launched and the result is false. -/
theorem C13_at_most_one_error_witness :
    (GENUP4WIN_ERROR, "resource not found")
      ∈ events (CheckForUpdates sampleMacros envPayloadFails "C:\\app\\Foo.exe"
          "http://x/genUp4win.xml" (World.start noFiles)).2.trace
    ∧ (errorEvents (CheckForUpdates sampleMacros envPayloadFails "C:\\app\\Foo.exe"
          "http://x/genUp4win.xml" (World.start noFiles)).2.trace).length ≤ 1
    ∧ (events (CheckForUpdates sampleMacros envPayloadFails "C:\\app\\Foo.exe"
          "http://x/genUp4win.xml" (World.start noFiles)).2.trace).getLast?
        = some (GENUP4WIN_ERROR, "resource not found")
    ∧ launches (CheckForUpdates sampleMacros envPayloadFails "C:\\app\\Foo.exe"
          "http://x/genUp4win.xml" (World.start noFiles)).2.trace = []
    ∧ (CheckForUpdates sampleMacros envPayloadFails "C:\\app\\Foo.exe"
          "http://x/genUp4win.xml" (World.start noFiles)).1 = false :=
  have h := C13_at_most_one_error sampleMacros envPayloadFails "C:\\app\\Foo.exe"
    "http://x/genUp4win.xml" noFiles
  have h2 := h.2 "resource not found" (by decide)
  ⟨by decide, h.1, h2.2.1, h2.2.2.1, h2.2.2.2⟩

/-! ## C14: `CenterWindow` -/

/-- An `int` expression whose mathematical result is in the range of `int`
has that result. -/
theorem toInt32_of_range (x : Int) (hLo : -2147483648 ≤ x) (hHi : x ≤ 2147483647) :
    toInt32 x = x := by
  unfold toInt32
  omega

/-- Halving with truncation toward zero stays between zero and the operand. -/
theorem tdiv_two_bounds (x : Int) :
    (0 ≤ x → 0 ≤ Int.tdiv x 2 ∧ Int.tdiv x 2 ≤ x)
    ∧ (x ≤ 0 → x ≤ Int.tdiv x 2 ∧ Int.tdiv x 2 ≤ 0) := by
  constructor
  · intro h
    rw [Int.tdiv_eq_ediv h (by decide)]
    omega
  · intro h
    have h2 : Int.tdiv x 2 = -((-x) / 2) := by
      have h3 := Int.neg_tdiv (-x) 2
      rw [Int.neg_neg] at h3
      rw [h3, Int.tdiv_eq_ediv (by omega) (by decide)]
    rw [h2]
    omega

/-- One axis of `CenterWindow`, for any centred start position in the range
of `int`: the clamped position plus the size does not exceed the screen size,
and the position is not negative when the size does not exceed the screen
size. -/
theorem clamp_axis (nStart nSize nScreen : Int)
    (hStart : -2147483648 ≤ nStart ∧ nStart ≤ 805306368)
    (hSize : -536870912 ≤ nSize ∧ nSize ≤ 536870912)
    (hScreen : -268435456 ≤ nScreen ∧ nScreen ≤ 268435456) :
    (if toInt32 ((if nStart < 0 then 0 else nStart) + nSize) > nScreen
        then toInt32 (nScreen - nSize) else (if nStart < 0 then 0 else nStart)) + nSize ≤ nScreen
    ∧ (nSize ≤ nScreen →
        0 ≤ (if toInt32 ((if nStart < 0 then 0 else nStart) + nSize) > nScreen
          then toInt32 (nScreen - nSize) else (if nStart < 0 then 0 else nStart))) := by
  have h1 : toInt32 ((if nStart < 0 then 0 else nStart) + nSize)
      = (if nStart < 0 then 0 else nStart) + nSize := by
    apply toInt32_of_range <;> split <;> omega
  have h2 : toInt32 (nScreen - nSize) = nScreen - nSize := by
    apply toInt32_of_range <;> omega
  rw [h1, h2]
  constructor
  · split <;> split <;> omega
  · intro h
    split <;> split <;> omega

/-- Outside the range in which no `int` operation overflows, the position can
end beyond the screen: for a parent at `x = 2147483000` to `2147483600` and a
window 700 wide, `nX + nWidth` wraps to a negative value, the right-edge test
does not fire, and the window is moved to `x = 2147482950` on a screen 1920
wide. -/
theorem CenterWindow_overflow_example :
    CenterWindow (some ⟨2147483000, 0, 2147483600, 600⟩) ⟨0, 0, 700, 300⟩ 1920 1080
      = (true, some ⟨2147482950, 150, 700, 300⟩) := by
  decide

/-- C14, as stated, fails: a window of 2000 by 1200 with a parent, on a
screen of 1920 by 1080, is moved to `(-80, -120)`; both coordinates are
negative. -/
theorem C14_counterexample :
    CenterWindow (some ⟨0, 0, 1920, 1080⟩) ⟨0, 0, 2000, 1200⟩ 1920 1080
        = (true, some ⟨-80, -120, 2000, 1200⟩)
    ∧ ¬ ((0 : Int) ≤ -80) ∧ ¬ ((0 : Int) ≤ -120) := by
  decide

/-- C14, amended. For a window with a parent, when the coordinates of both
rectangles and the screen size lie within `±2^28` (so that no `int` operation
overflows), `CenterWindow` returns TRUE and calls `MoveWindow` with the width
and height of the window unchanged and a position `(nX, nY)` such that
`nX + nWidth <= nScreenWidth` and `nY + nHeight <= nScreenHeight`; `0 <= nX`
holds when the window is not wider than the screen and `0 <= nY` when it is not
higher than the screen. -/
theorem C14_center_window (rectParent rectWindow : RECT) (nScreenWidth nScreenHeight : Int)
    (hParent : rectParent.within) (hWindow : rectWindow.within)
    (hScreenWidth : -268435456 ≤ nScreenWidth ∧ nScreenWidth ≤ 268435456)
    (hScreenHeight : -268435456 ≤ nScreenHeight ∧ nScreenHeight ≤ 268435456) :
    ∃ nX nY : Int,
      CenterWindow (some rectParent) rectWindow nScreenWidth nScreenHeight
        = (true, some ⟨nX, nY, rectWindow.right - rectWindow.left,
            rectWindow.bottom - rectWindow.top⟩)
      ∧ nX + (rectWindow.right - rectWindow.left) ≤ nScreenWidth
      ∧ nY + (rectWindow.bottom - rectWindow.top) ≤ nScreenHeight
      ∧ (rectWindow.right - rectWindow.left ≤ nScreenWidth → 0 ≤ nX)
      ∧ (rectWindow.bottom - rectWindow.top ≤ nScreenHeight → 0 ≤ nY) := by
  obtain ⟨⟨hpl1, hpl2⟩, ⟨hpt1, hpt2⟩, ⟨hpr1, hpr2⟩, ⟨hpb1, hpb2⟩⟩ := hParent
  obtain ⟨⟨hwl1, hwl2⟩, ⟨hwt1, hwt2⟩, ⟨hwr1, hwr2⟩, ⟨hwb1, hwb2⟩⟩ := hWindow
  have hW : toInt32 (rectWindow.right - rectWindow.left) = rectWindow.right - rectWindow.left :=
    toInt32_of_range _ (by omega) (by omega)
  have hH : toInt32 (rectWindow.bottom - rectWindow.top) = rectWindow.bottom - rectWindow.top :=
    toInt32_of_range _ (by omega) (by omega)
  have hPW : toInt32 (rectParent.right - rectParent.left) = rectParent.right - rectParent.left :=
    toInt32_of_range _ (by omega) (by omega)
  have hPH : toInt32 (rectParent.bottom - rectParent.top) = rectParent.bottom - rectParent.top :=
    toInt32_of_range _ (by omega) (by omega)
  have hDW : toInt32 (rectParent.right - rectParent.left - (rectWindow.right - rectWindow.left))
      = rectParent.right - rectParent.left - (rectWindow.right - rectWindow.left) :=
    toInt32_of_range _ (by omega) (by omega)
  have hDH : toInt32 (rectParent.bottom - rectParent.top - (rectWindow.bottom - rectWindow.top))
      = rectParent.bottom - rectParent.top - (rectWindow.bottom - rectWindow.top) :=
    toInt32_of_range _ (by omega) (by omega)
  have hQW := tdiv_two_bounds
    (rectParent.right - rectParent.left - (rectWindow.right - rectWindow.left))
  have hQH := tdiv_two_bounds
    (rectParent.bottom - rectParent.top - (rectWindow.bottom - rectWindow.top))
  have hXrange : -2147483648 ≤ Int.tdiv
        (rectParent.right - rectParent.left - (rectWindow.right - rectWindow.left)) 2
        + rectParent.left
      ∧ Int.tdiv (rectParent.right - rectParent.left - (rectWindow.right - rectWindow.left)) 2
        + rectParent.left ≤ 805306368 := by
    rcases Int.le_total 0
      (rectParent.right - rectParent.left - (rectWindow.right - rectWindow.left)) with h | h
    · have := hQW.1 h
      omega
    · have := hQW.2 h
      omega
  have hYrange : -2147483648 ≤ Int.tdiv
        (rectParent.bottom - rectParent.top - (rectWindow.bottom - rectWindow.top)) 2
        + rectParent.top
      ∧ Int.tdiv (rectParent.bottom - rectParent.top - (rectWindow.bottom - rectWindow.top)) 2
        + rectParent.top ≤ 805306368 := by
    rcases Int.le_total 0
      (rectParent.bottom - rectParent.top - (rectWindow.bottom - rectWindow.top)) with h | h
    · have := hQH.1 h
      omega
    · have := hQH.2 h
      omega
  have hX : toInt32 (Int.tdiv
        (rectParent.right - rectParent.left - (rectWindow.right - rectWindow.left)) 2
        + rectParent.left)
      = Int.tdiv (rectParent.right - rectParent.left - (rectWindow.right - rectWindow.left)) 2
        + rectParent.left :=
    toInt32_of_range _ hXrange.1 (by omega)
  have hY : toInt32 (Int.tdiv
        (rectParent.bottom - rectParent.top - (rectWindow.bottom - rectWindow.top)) 2
        + rectParent.top)
      = Int.tdiv (rectParent.bottom - rectParent.top - (rectWindow.bottom - rectWindow.top)) 2
        + rectParent.top :=
    toInt32_of_range _ hYrange.1 (by omega)
  have hAxisX := clamp_axis
    (Int.tdiv (rectParent.right - rectParent.left - (rectWindow.right - rectWindow.left)) 2
      + rectParent.left)
    (rectWindow.right - rectWindow.left) nScreenWidth hXrange (by omega) hScreenWidth
  have hAxisY := clamp_axis
    (Int.tdiv (rectParent.bottom - rectParent.top - (rectWindow.bottom - rectWindow.top)) 2
      + rectParent.top)
    (rectWindow.bottom - rectWindow.top) nScreenHeight hYrange (by omega) hScreenHeight
  refine ⟨_, _, ?_, hAxisX.1, hAxisY.1, hAxisX.2, hAxisY.2⟩
  unfold CenterWindow
  simp only [hW, hH, hPW, hPH, hDW, hDH, hX, hY]

/-- C14, amended, at a window of 400 by 300 centred on a parent at
`(100, 100)`-`(900, 700)` on a screen of 1920 by 1080: it is moved to
`(300, 250)`. -/
theorem C14_center_window_witness :
    CenterWindow (some ⟨100, 100, 900, 700⟩) ⟨0, 0, 400, 300⟩ 1920 1080
        = (true, some ⟨300, 250, 400, 300⟩)
    ∧ (0 : Int) ≤ 300 ∧ (0 : Int) ≤ 250
    ∧ (300 : Int) + (400 - 0) ≤ 1920 ∧ (250 : Int) + (300 - 0) ≤ 1080 := by
  obtain ⟨nX, nY, hEq, h1, h2, h3, h4⟩ :=
    C14_center_window ⟨100, 100, 900, 700⟩ ⟨0, 0, 400, 300⟩ 1920 1080 (by decide) (by decide)
      (by decide) (by decide)
  have hVal : CenterWindow (some ⟨100, 100, 900, 700⟩) ⟨0, 0, 400, 300⟩ 1920 1080
      = (true, some ⟨300, 250, 400, 300⟩) := by decide
  rw [hVal] at hEq
  have hX : nX = 300 := by
    have h5 := congrArg (fun r => (r.2.map (fun a => a.X)).getD 0) hEq
    exact h5.symm
  have hY : nY = 250 := by
    have h5 := congrArg (fun r => (r.2.map (fun a => a.Y)).getD 0) hEq
    exact h5.symm
  subst hX
  subst hY
  exact ⟨hVal, h3 (by decide), h4 (by decide), h1, h2⟩

end GenUp4win
